import Mathlib

/-!
Verification development for the `batchi` job-resolution core
(`src/core/resolve.ts`, `resolveJobChain` and its helpers).

The cloud services are modelled by a `World` of pure request/response
functions; each service call a run issues is recorded in a trace of
`Call`s, and every debug line the code would print is recorded in a
list of diagnostic strings.  JavaScript `a ?? b` is `Option.orElse`
(`<|>`), JavaScript `a || b` on strings is `jsOr` (the empty string is
falsy), and JavaScript truthiness of an optional string is `jsTruthy`.
-/

namespace Batchi

/-- One `name`/`value` pair of a container environment entry. -/
structure EnvPair where
  name : Option String := none
  value : Option String := none
deriving DecidableEq

/-- The container record carried by a Batch job or attempt.  A missing
`networkInterfaces` array is modelled as `[]`; each entry is that
interface's optional `networkInterfaceId`. -/
structure ContainerDetail where
  taskArn : Option String := none
  containerInstanceArn : Option String := none
  logStreamName : Option String := none
  networkInterfaces : List (Option String) := []
  image : Option String := none
  command : Option (List String) := none
  environment : Option (List EnvPair) := none
deriving DecidableEq

/-- One execution attempt of a job. -/
structure Attempt where
  container : Option ContainerDetail := none
deriving DecidableEq

/-- The job record returned by the scheduler's describe call.
`eksProperties` models presence of that field. -/
structure Job where
  jobId : Option String := none
  jobQueue : Option String := none
  computeEnvironment : Option String := none
  attempts : List Attempt := []
  container : Option ContainerDetail := none
  platformCapabilities : List String := []
  eksProperties : Bool := false
  eksAttempts : List Unit := []
deriving DecidableEq

/-- An ECS task detail record. -/
structure EcsTask where
  taskArn : Option String := none
  clusterArn : Option String := none
  containerInstanceArn : Option String := none
deriving DecidableEq

/-- An ECS container-instance record. -/
structure ContainerInstance where
  ec2InstanceId : Option String := none
deriving DecidableEq

/-- A described network interface (`Attachment.InstanceId`, `VpcId`, `SubnetId`). -/
structure NetworkInterface where
  attachmentInstanceId : Option String := none
  vpcId : Option String := none
  subnetId : Option String := none
deriving DecidableEq

/-- An EC2 instance record (only the fields the resolver reads). -/
structure Ec2Instance where
  vpcId : Option String := none
  subnetId : Option String := none
deriving DecidableEq

/-- One EC2 reservation (list of instances). -/
structure Reservation where
  instances : List Ec2Instance := []
deriving DecidableEq

/-- A described subnet. -/
structure Subnet where
  vpcId : Option String := none
deriving DecidableEq

/-- A `Key`/`Value` tag. -/
structure Tag where
  key : Option String := none
  value : Option String := none
deriving DecidableEq

/-- A described VPC.  `ipv6Assocs` lists each association's optional
`Ipv6CidrBlock`; a missing association set is modelled as `[]`. -/
structure VpcRec where
  vpcId : Option String := none
  cidrBlock : Option String := none
  ipv6Assocs : List (Option String) := []
  state : Option String := none
  dhcpOptionsId : Option String := none
  tags : Option (List Tag) := none
deriving DecidableEq

/-- A compute environment record.  `computeResourcesSubnets` models
`computeResources?.subnets`. -/
structure ComputeEnv where
  computeEnvironmentArn : Option String := none
  computeEnvironmentName : Option String := none
  ecsClusterArn : Option String := none
  computeResourcesSubnets : Option (List String) := none
deriving DecidableEq

/-- A job queue: the `computeEnvironment` field of each entry of
`computeEnvironmentOrder`, in declared order. -/
structure JobQueue where
  computeEnvironmentOrder : List (Option String) := []
deriving DecidableEq

/-- One CloudWatch log event. -/
structure LogEvent where
  message : Option String := none
deriving DecidableEq

/-- The `vpc` field of the resolved job chain. -/
structure VpcOut where
  vpcId : Option String := none
  name : Option String := none
  cidrBlock : Option String := none
  ipv6CidrBlock : Option String := none
  state : Option String := none
  dhcpOptionsId : Option String := none
  tags : Option (List Tag) := none
deriving DecidableEq

/-- One recorded service call, with the request arguments the code sends. -/
inductive Call where
  | describeJobs (jobs : List String)
  | describeJobQueues (jobQueues : List (Option String))
  | describeComputeEnvironments (computeEnvironments : List String)
  | describeTasks (cluster : Option String) (tasks : List String)
  | listClusters
  | listTasks (cluster : String) (startedBy : Option String) (maxResults : Nat)
  | describeContainerInstances (cluster : String) (containerInstances : List String)
  | describeNetworkInterfaces (ids : List String)
  | describeInstances (ids : List String)
  | describeSubnets (ids : List String)
  | describeVpcs (ids : List String)
  | getLogEvents (group : String) (stream : String) (limit : Int) (startFromHead : Bool)
deriving DecidableEq

/-- The service operation a `Call` is an instance of. -/
inductive CallKind where
  | batchJobs | batchQueues | batchCEs
  | ecsTasks | ecsListClusters | ecsListTasks | ecsCIs
  | ec2ENIs | ec2Insts | ec2Subnets | ec2Vpcs
  | logEvents
deriving DecidableEq

/-- Kind of a recorded call. -/
def Call.kind : Call → CallKind
  | .describeJobs _ => .batchJobs
  | .describeJobQueues _ => .batchQueues
  | .describeComputeEnvironments _ => .batchCEs
  | .describeTasks _ _ => .ecsTasks
  | .listClusters => .ecsListClusters
  | .listTasks _ _ _ => .ecsListTasks
  | .describeContainerInstances _ _ => .ecsCIs
  | .describeNetworkInterfaces _ => .ec2ENIs
  | .describeInstances _ => .ec2Insts
  | .describeSubnets _ => .ec2Subnets
  | .describeVpcs _ => .ec2Vpcs
  | .getLogEvents _ _ _ _ => .logEvents

/-- The read-only cloud state: one pure request/response function per
service operation.  An `Except.error` models a thrown SDK exception
(carrying the error message); an `Except.ok` with an empty list models
a response with no (or an absent) result array. -/
structure World where
  batchDescribeJobs : List String → Except String (List Job)
  batchDescribeJobQueues : List (Option String) → Except String (List JobQueue)
  batchDescribeComputeEnvironments : List String → Except String (List ComputeEnv)
  ecsDescribeTasks : Option String → List String → Except String (List EcsTask)
  ecsListClusters : Except String (List String)
  ecsListTasks : String → Option String → Nat → Except String (List String)
  ecsDescribeContainerInstances : String → List String → Except String (List ContainerInstance)
  ec2DescribeNetworkInterfaces : List String → Except String (List NetworkInterface)
  ec2DescribeInstances : List String → Except String (List Reservation)
  ec2DescribeSubnets : List String → Except String (List Subnet)
  ec2DescribeVpcs : List String → Except String (List VpcRec)
  logsGetLogEvents : String → String → Int → Bool → Except String (List LogEvent)

/-- Model of `ResolveDeps` plus the process-wide `BATCHI_DEBUG` toggle. -/
structure Deps where
  region : String
  world : World
  debug : Bool

/-- The options record of `resolveJobChain`. -/
structure Opts where
  logGroup : Option String := none
  logLines : Option Int := none

/-- JavaScript truthiness of an optional string (`undefined` and `""` are falsy). -/
def jsTruthy : Option String → Bool
  | some s => s ≠ ""
  | none => false

/-- JavaScript `a || b` on optional strings. -/
def jsOr (a b : Option String) : Option String :=
  if jsTruthy a then a else b

/-- String interpolation of a possibly-absent value. -/
def optStr : Option String → String
  | some s => s
  | none => "undefined"

/-- Models JavaScript `String.prototype.trim` (strip leading and
trailing whitespace), written by structural recursion so that it
evaluates inside proofs. -/
def jsTrim (s : String) : String :=
  ⟨((s.data.dropWhile fun c => c.isWhitespace).reverse.dropWhile fun c => c.isWhitespace).reverse⟩

/-- Helper `const dbg = (k, v) => debugOn() && console.error(...)`: the debug
lines this emits (as a delta). -/
def dbgD (d : Deps) (k v : String) : List String :=
  if d.debug then ["[debug] " ++ k ++ ": " ++ v] else []

/-- Helper `const dbe = (label, e) => debugOn() && console.error(...)`. -/
def dbeD (d : Deps) (label msg : String) : List String :=
  if d.debug then ["[debug][error] " ++ label ++ ": " ++ msg] else []

/-- Split a character list on a separator character (the semantics of
JavaScript / Lean `splitOn` for a one-character separator), written by
structural recursion so that it evaluates inside proofs. -/
def splitOnChar (sep : Char) : List Char → List (List Char)
  | [] => [[]]
  | c :: rest =>
    let r := splitOnChar sep rest
    if c = sep then [] :: r
    else
      match r with
      | h :: t => (c :: h) :: t
      | [] => [[c]]

/-- Whether `needle` starts `hay`. -/
def startsWithChars : List Char → List Char → Bool
  | [], _ => true
  | _ :: _, [] => false
  | a :: as2, b :: bs => a = b && startsWithChars as2 bs

/-- Whether `needle` occurs as a contiguous substring of `hay`
(JavaScript `hay.includes(needle)`). -/
def containsChars (needle : List Char) : List Char → Bool
  | [] => startsWithChars needle []
  | b :: bs => startsWithChars needle (b :: bs) || containsChars needle bs

/-- Whether `hay` ends with `suffixChars`. -/
def endsWithChars (suffixChars hay : List Char) : Bool :=
  startsWithChars suffixChars.reverse hay.reverse

/-- Join character-list segments with a separator character. -/
def intercalateChar (sep : Char) : List (List Char) → List Char
  | [] => []
  | [x] => x
  | x :: y :: rest => x ++ sep :: intercalateChar sep (y :: rest)

/-- Predicate `isExpectedClusterMismatch`: the error message carries the
"cluster identifiers mismatch" signature (`msg.includes(...)`). -/
def isExpectedClusterMismatch (msg : String) : Bool :=
  containsChars "cluster identifiers mismatch".data msg.data

/-- The catch-block pattern `if (!isExpectedClusterMismatch(e)) dbe(label, e)`
used at every candidate lookup of the task-resolution chain. -/
def absorbD (d : Deps) (label msg : String) : List String :=
  if isExpectedClusterMismatch msg then [] else dbeD d label msg

/-- Characters allowed in the trailing id segment of the task / container-instance
ARN patterns (`[A-Za-z0-9-]`). -/
def isArnIdChar (c : Char) : Bool :=
  ('A' ≤ c && c ≤ 'Z') || ('a' ≤ c && c ≤ 'z') || ('0' ≤ c && c ≤ '9') || c = '-'

/-- Shared shape of `clusterFromTaskArn` / `clusterFromContainerInstanceArn`:
match `:<kindTag>/<cluster>/<id>` at the end of the ARN, returning the
cluster segment. -/
def clusterFromArnWith (kindTag : String) (arn : Option String) : Option String :=
  match arn with
  | none => none
  | some a =>
    match (splitOnChar '/' a.data).reverse with
    | tid :: cname :: rest =>
      if rest ≠ [] && tid ≠ [] && tid.all isArnIdChar && cname ≠ [] &&
          endsWithChars kindTag.data (intercalateChar '/' rest.reverse) then
        some (String.mk cname)
      else none
    | _ => none

/-- Parse `arn:aws:ecs:region:acct:task/<cluster-name>/<task-id>` to `cluster-name`. -/
def clusterFromTaskArn (arn : Option String) : Option String :=
  clusterFromArnWith ":task" arn

/-- Build a cluster ARN from the task ARN's region/account/cluster parts. -/
def clusterArnFromTaskArn (arn : Option String) : Option String :=
  match arn with
  | none => none
  | some a =>
    let parts := splitOnChar ':' a.data
    if parts.length < 6 then none
    else
      let region := String.mk (parts.getD 3 [])
      let account := String.mk (parts.getD 4 [])
      match clusterFromTaskArn (some a) with
      | some nm =>
        if region = "" || account = "" then none
        else some ("arn:aws:ecs:" ++ region ++ ":" ++ account ++ ":cluster/" ++ nm)
      | none => none

/-- Derive the cluster name from a container-instance ARN. -/
def clusterFromContainerInstanceArn (arn : Option String) : Option String :=
  clusterFromArnWith ":container-instance" arn

/-- Build a cluster ARN from the container-instance ARN's parts. -/
def clusterArnFromContainerInstanceArn (arn : Option String) : Option String :=
  match arn with
  | none => none
  | some a =>
    let parts := splitOnChar ':' a.data
    if parts.length < 6 then none
    else
      let region := String.mk (parts.getD 3 [])
      let account := String.mk (parts.getD 4 [])
      match clusterFromContainerInstanceArn (some a) with
      | some nm =>
        if region = "" || account = "" then none
        else some ("arn:aws:ecs:" ++ region ++ ":" ++ account ++ ":cluster/" ++ nm)
      | none => none

/-- Helper `const last = (arr) => arr && arr.length ? arr[arr.length - 1] : undefined`. -/
def lastElem (l : List α) : Option α :=
  l.getLast?

/-- Set a key of a JavaScript object map: an existing key keeps its
position, a new key is appended. -/
def envInsert (m : List (String × Option String)) (k : String) (v : Option String) :
    List (String × Option String) :=
  if m.any (fun p => p.1 = k) then
    m.map (fun p => if p.1 = k then (k, v) else p)
  else m ++ [(k, v)]

/-- Model of the reduce over `jobContainer?.environment` building the env map. -/
def envReduce (pairs : List EnvPair) : List (String × Option String) :=
  pairs.foldl
    (fun m pr =>
      match pr.name with
      | some n => if n ≠ "" then envInsert m n pr.value else m
      | none => m)
    []

/-- Model of `.map(o => o?.computeEnvironment).filter(Boolean)` over a
compute-environment-order list. -/
def truthyFilter (l : List (Option String)) : List String :=
  l.filterMap fun o =>
    match o with
    | some s => if s = "" then none else some s
    | none => none

/-- JavaScript `list.slice(-n)` for `n ≥ 1`: the last `n` elements. -/
def takeRight (n : Nat) (l : List α) : List α :=
  l.drop (l.length - n)

/-- Default `opts?.logGroup ?? "/aws/batch/job"`. -/
def effLogGroup (o : Opts) : String :=
  o.logGroup.getD "/aws/batch/job"

/-- Clamp `Math.max(1, Number(opts?.logLines ?? 50))` (integer counts). -/
def effLogLines (o : Opts) : Int :=
  max 1 (o.logLines.getD 50)

/-! Section: the cluster hint derived from the job queue (resolveJobChain, "Cluster hint via CE from the queue")

The describe of the queue is issued unconditionally with `[job.jobQueue]`;
both inner awaits share one catch whose label is
`"DescribeJobQueues/DescribeComputeEnvironments"`; the outer catch is
unreachable because the inner function returns instead of throwing. -/

/-- Lines 276–294: resolve `jobQueue → computeEnvironmentOrder[0] → ecsClusterArn`,
returning `(hint, calls, debug lines)`. -/
def hintFromQueue (d : Deps) (queue : Option String) :
    Option String × List Call × List String :=
  let c1 := Call.describeJobQueues [queue]
  match d.world.batchDescribeJobQueues [queue] with
  | .error e => (none, [c1], dbeD d "DescribeJobQueues/DescribeComputeEnvironments" e)
  | .ok jqs =>
    let ceArn := ((jqs.head?).bind fun q => q.computeEnvironmentOrder.head?).bind id
    if jsTruthy ceArn then
      let ce := ceArn.getD ""
      let c2 := Call.describeComputeEnvironments [ce]
      match d.world.batchDescribeComputeEnvironments [ce] with
      | .error e => (none, [c1, c2], dbeD d "DescribeJobQueues/DescribeComputeEnvironments" e)
      | .ok ces => ((ces.head?).bind (fun c => c.ecsClusterArn), [c1, c2], [])
    else (none, [c1], [])

/-! Section: the task-resolution chain inlined in `resolveJobChain` (lines 301–417)

Each step returns its found task (if any), the calls it issued and the
debug lines it emitted; `taskChain` wires them together with the gating
and cluster/container-instance updates of the source. -/

/-- Lines 305–318: `DescribeTasks` against the cluster ARN parsed from the
task ARN; on success it also rewrites `ecsClusterArn` to
`r.tasks[0].clusterArn || parsedClusterArn`. -/
def taskStepParsedArn (d : Deps) (tArn : String) (parsedClusterArn clusterIn : Option String) :
    (Option EcsTask × Option String) × List Call × List String :=
  if jsTruthy parsedClusterArn then
    let p := parsedClusterArn.getD ""
    let c := Call.describeTasks (some p) [tArn]
    match d.world.ecsDescribeTasks (some p) [tArn] with
    | .ok (tk :: _) => ((some tk, jsOr tk.clusterArn (some p)), [c], [])
    | .ok [] => ((none, clusterIn), [c], [])
    | .error e =>
      ((none, clusterIn), [c],
        absorbD d ("DescribeTasks(parsedClusterArn=" ++ optStr parsedClusterArn ++ ")") e)
  else ((none, clusterIn), [], [])

/-- Lines 320–332: `DescribeTasks` against the current `ecsClusterArn`
(the CE hint, or the cluster just resolved by the previous step).  Note
the source does not gate this on `!ecsTask`: it runs even after a
success, and only `ecsTask` is overwritten on success. -/
def taskStepHinted (d : Deps) (tArn : String) (cluster : Option String) :
    Option EcsTask × List Call × List String :=
  if jsTruthy cluster then
    let h := cluster.getD ""
    let c := Call.describeTasks (some h) [tArn]
    match d.world.ecsDescribeTasks (some h) [tArn] with
    | .ok (tk :: _) => (some tk, [c], [])
    | .ok [] => (none, [c], [])
    | .error e =>
      (none, [c], absorbD d ("DescribeTasks(hintedClusterArn=" ++ optStr cluster ++ ")") e)
  else (none, [], [])

/-- Lines 334–346: `DescribeTasks` with the bare parsed cluster name. -/
def taskStepParsedName (d : Deps) (tArn : String) (parsedClusterName : Option String) :
    Option EcsTask × List Call × List String :=
  if jsTruthy parsedClusterName then
    let nm := parsedClusterName.getD ""
    let c := Call.describeTasks (some nm) [tArn]
    match d.world.ecsDescribeTasks (some nm) [tArn] with
    | .ok (tk :: _) => (some tk, [c], [])
    | .ok [] => (none, [c], [])
    | .error e =>
      (none, [c], absorbD d ("DescribeTasks(parsedCluster=" ++ optStr parsedClusterName ++ ")") e)
  else (none, [], [])

/-- Lines 348–356: `DescribeTasks` with no cluster. -/
def taskStepNoCluster (d : Deps) (tArn : String) :
    Option EcsTask × List Call × List String :=
  let c := Call.describeTasks none [tArn]
  match d.world.ecsDescribeTasks none [tArn] with
  | .ok (tk :: _) => (some tk, [c], [])
  | .ok [] => (none, [c], [])
  | .error e => (none, [c], absorbD d "DescribeTasks(noCluster)" e)

/-- Lines 362–375: try `DescribeTasks` against each listed cluster,
stopping at the first that yields a task. -/
def enumLoop (d : Deps) (tArn : String) :
    List String → Option (EcsTask × String) × List Call × List String
  | [] => (none, [], [])
  | c :: rest =>
    let call := Call.describeTasks (some c) [tArn]
    match d.world.ecsDescribeTasks (some c) [tArn] with
    | .ok (tk :: _) => (some (tk, c), [call], [])
    | .ok [] =>
      let r := enumLoop d tArn rest
      (r.1, call :: r.2.1, r.2.2)
    | .error e =>
      let r := enumLoop d tArn rest
      (r.1, call :: r.2.1, absorbD d ("DescribeTasks(cluster=" ++ c ++ ")") e ++ r.2.2)

/-- Lines 358–379: `ListClusters` then `enumLoop`. -/
def taskStepEnum (d : Deps) (tArn : String) :
    Option (EcsTask × String) × List Call × List String :=
  match d.world.ecsListClusters with
  | .ok arns =>
    let r := enumLoop d tArn arns
    (r.1, Call.listClusters :: r.2.1, r.2.2)
  | .error e => (none, [Call.listClusters], dbeD d "ListClusters" e)

/-- Lines 385–407: per cluster, `ListTasks(startedBy = job.jobId)` then, if
any task ARNs come back, describe them and take the first task. -/
def startedByLoop (d : Deps) (jobId : Option String) :
    List String → Option (EcsTask × String) × List Call × List String
  | [] => (none, [], [])
  | c :: rest =>
    let call1 := Call.listTasks c jobId 100
    match d.world.ecsListTasks c jobId 100 with
    | .ok (a :: more) =>
      let call2 := Call.describeTasks (some c) (a :: more)
      match d.world.ecsDescribeTasks (some c) (a :: more) with
      | .ok (tk :: _) => (some (tk, c), [call1, call2], [])
      | .ok [] =>
        let r := startedByLoop d jobId rest
        (r.1, call1 :: call2 :: r.2.1, r.2.2)
      | .error e =>
        let r := startedByLoop d jobId rest
        (r.1, call1 :: call2 :: r.2.1,
          absorbD d ("List/DescribeTasks(startedBy=" ++ optStr jobId ++ ", cluster=" ++ c ++ ")") e
            ++ r.2.2)
    | .ok [] =>
      let r := startedByLoop d jobId rest
      (r.1, call1 :: r.2.1, r.2.2)
    | .error e =>
      let r := startedByLoop d jobId rest
      (r.1, call1 :: r.2.1,
        absorbD d ("List/DescribeTasks(startedBy=" ++ optStr jobId ++ ", cluster=" ++ c ++ ")") e
          ++ r.2.2)

/-- Lines 382–411: `ListClusters` then `startedByLoop`. -/
def taskStepStartedBy (d : Deps) (jobId : Option String) :
    Option (EcsTask × String) × List Call × List String :=
  match d.world.ecsListClusters with
  | .ok arns =>
    let r := startedByLoop d jobId arns
    (r.1, Call.listClusters :: r.2.1, r.2.2)
  | .error e => (none, [Call.listClusters], dbeD d "ListClusters(startedBy)" e)

/-- Lines 301–417: the whole inlined task-resolution chain, for a truthy
task ARN.  Returns `((ecsTask, ecsClusterArn, containerInstanceArn), calls, debug lines)`. -/
def taskChain (d : Deps) (jobId : Option String) (tArn : String) (clusterIn ciIn : Option String) :
    (Option EcsTask × Option String × Option String) × List Call × List String :=
  let parsedClusterArn := clusterArnFromTaskArn (some tArn)
  let parsedClusterName := clusterFromTaskArn (some tArn)
  let stepA := taskStepParsedArn d tArn parsedClusterArn clusterIn
  let taskA := stepA.1.1
  let clusterA := stepA.1.2
  let stepB := taskStepHinted d tArn clusterA
  let task1 := stepB.1 <|> taskA
  let stepC := if task1.isNone then taskStepParsedName d tArn parsedClusterName
               else (none, [], [])
  let task2 := task1 <|> stepC.1
  let stepD := if task2.isNone then taskStepNoCluster d tArn else (none, [], [])
  let task3 := task2 <|> stepD.1
  let stepE := if task3.isNone then taskStepEnum d tArn else (none, [], [])
  let task4 := task3 <|> (stepE.1.map fun r => r.1)
  let clusterE := match stepE.1 with
    | some r => some r.2
    | none => clusterA
  let stepF := if task4.isNone then taskStepStartedBy d jobId else (none, [], [])
  let task5 := task4 <|> (stepF.1.map fun r => r.1)
  let clusterF := match stepF.1 with
    | some r => some r.2
    | none => clusterE
  let calls := stepA.2.1 ++ stepB.2.1 ++ stepC.2.1 ++ stepD.2.1 ++ stepE.2.1 ++ stepF.2.1
  let diags := stepA.2.2 ++ stepB.2.2 ++ stepC.2.2 ++ stepD.2.2 ++ stepE.2.2 ++ stepF.2.2
  match task5 with
  | some tk =>
    ((some tk,
      jsOr tk.clusterArn (jsOr clusterF (clusterArnFromTaskArn (some tArn))),
      jsOr tk.containerInstanceArn ciIn), calls, diags)
  | none => ((none, clusterF, ciIn), calls, diags)

/-- The `if (taskArn) { ... }` gate around the chain (truthiness of the
task ARN); otherwise task, cluster and container-instance pass through. -/
def taskStage (d : Deps) (jobId : Option String) (taskArn : Option String)
    (clusterIn ciIn : Option String) :
    (Option EcsTask × Option String × Option String) × List Call × List String :=
  match taskArn with
  | some t => if t ≠ "" then taskChain d jobId t clusterIn ciIn else ((none, clusterIn, ciIn), [], [])
  | none => ((none, clusterIn, ciIn), [], [])

/-! Section: host, compute-environment, VPC and log stages -/

/-- Lines 419–439: ECS container instance → EC2 instance id, gated on
`containerInstanceArn && !isFargateJob`. -/
def ciStage (d : Deps) (isFargateJob : Bool) (containerInstanceArn ecsClusterArn : Option String) :
    Option String × List Call × List String :=
  if jsTruthy containerInstanceArn && !isFargateJob then
    let ci := containerInstanceArn.getD ""
    let clusterForCi :=
      jsOr ecsClusterArn
        (jsOr (clusterArnFromContainerInstanceArn containerInstanceArn)
          (clusterFromContainerInstanceArn containerInstanceArn))
    if jsTruthy clusterForCi then
      let cl := clusterForCi.getD ""
      let call := Call.describeContainerInstances cl [ci]
      match d.world.ecsDescribeContainerInstances cl [ci] with
      | .ok cis => ((cis.head?).bind (fun c => c.ec2InstanceId), [call], [])
      | .error e =>
        (none, [call], dbeD d ("DescribeContainerInstances(cluster=" ++ optStr clusterForCi ++ ")") e)
    else (none, [], [])
  else (none, [], [])

/-- Lines 441–460: ENI → EC2 fallback when no instance id was found and the
container has a network interface. -/
def eniStage (d : Deps) (ec2InstanceId0 : Option String) (container : Option ContainerDetail) :
    Option String × List Call × List String :=
  let nis := (container.map fun c => c.networkInterfaces).getD []
  if !jsTruthy ec2InstanceId0 && decide (0 < nis.length) then
    let eniId := nis.head?.bind id
    let dbgs := dbgD d "eniFallbackId" (optStr eniId)
    if jsTruthy eniId then
      let eid := eniId.getD ""
      let call := Call.describeNetworkInterfaces [eid]
      match d.world.ec2DescribeNetworkInterfaces [eid] with
      | .ok enis =>
        let iid := (enis.head?).bind fun ni => ni.attachmentInstanceId
        (iid <|> ec2InstanceId0, [call], dbgs)
      | .error e => (ec2InstanceId0, [call], dbgs ++ dbeD d "DescribeNetworkInterfaces" e)
    else (ec2InstanceId0, [], dbgs)
  else (ec2InstanceId0, [], [])

/-- Lines 462–473: describe the EC2 instance. -/
def instStage (d : Deps) (ec2InstanceId : Option String) :
    Option Ec2Instance × List Call × List String :=
  if jsTruthy ec2InstanceId then
    let iid := ec2InstanceId.getD ""
    let call := Call.describeInstances [iid]
    match d.world.ec2DescribeInstances [iid] with
    | .ok res => (((res.head?).map fun r => r.instances).bind List.head?, [call], [])
    | .error e => (none, [call], dbeD d "DescribeInstances" e)
  else (none, [], [])

/-- Lines 475–509: resolve the compute environment actually used, returning
`((computeEnvironmentArn, computeEnvironment), calls, debug lines)`. -/
def ceStage (d : Deps) (jobCE jobQueue ecsClusterArn : Option String) :
    (Option String × Option ComputeEnv) × List Call × List String :=
  if jsTruthy jobCE then
    let a := jobCE.getD ""
    let call := Call.describeComputeEnvironments [a]
    match d.world.batchDescribeComputeEnvironments [a] with
    | .ok ces =>
      let ce := ces.head?
      ((jsOr (ce.bind fun c => c.computeEnvironmentArn) jobCE, ce), [call], [])
    | .error e => ((jobCE, none), [call], dbeD d "Resolve ComputeEnvironment" e)
  else if jsTruthy jobQueue then
    let call1 := Call.describeJobQueues [jobQueue]
    match d.world.batchDescribeJobQueues [jobQueue] with
    | .error e => ((jobCE, none), [call1], dbeD d "Resolve ComputeEnvironment" e)
    | .ok jqs =>
      let ceArns := truthyFilter (((jqs.head?).map fun q => q.computeEnvironmentOrder).getD [])
      if 0 < ceArns.length then
        let call2 := Call.describeComputeEnvironments ceArns
        match d.world.batchDescribeComputeEnvironments ceArns with
        | .error e => ((jobCE, none), [call1, call2], dbeD d "Resolve ComputeEnvironment" e)
        | .ok ces =>
          let mtch := if jsTruthy ecsClusterArn then
              ces.find? fun c => c.ecsClusterArn == ecsClusterArn
            else none
          let chosen := mtch <|> ces.head?
          match chosen with
          | some c =>
            ((jsOr c.computeEnvironmentArn c.computeEnvironmentName, some c), [call1, call2], [])
          | none => ((jobCE, none), [call1, call2], [])
      else ((jobCE, none), [call1], [])
  else ((jobCE, none), [], [])

/-- Lines 517–534: the ENI fallback of the VPC cascade — if no
instance-derived VPC and the container has a network interface,
describe it and prefer its VPC/subnet ids. -/
def vpcEniStep (d : Deps) (vpcId0 subnetId0 : Option String) (nis : List (Option String)) :
    (Option String × Option String) × List Call × List String :=
  if !jsTruthy vpcId0 && decide (0 < nis.length) then
    let eniId := nis.head?.bind id
    if jsTruthy eniId then
      let eid := eniId.getD ""
      let call := Call.describeNetworkInterfaces [eid]
      match d.world.ec2DescribeNetworkInterfaces [eid] with
      | .ok enis =>
        let ni := enis.head?
        ((jsOr (ni.bind fun n => n.vpcId) vpcId0, jsOr (ni.bind fun n => n.subnetId) subnetId0),
          [call], ([] : List String))
      | .error e =>
        ((vpcId0, subnetId0), [call], dbeD d "DescribeNetworkInterfaces(for VPC)" e)
    else ((vpcId0, subnetId0), [], [])
  else ((vpcId0, subnetId0), [], [])

/-- Lines 542–551: derive the VPC from the subnet when one is known but
no VPC is. -/
def vpcSubnetStep (d : Deps) (vpcId1 subnetId2 : Option String) :
    Option String × List Call × List String :=
  if !jsTruthy vpcId1 && jsTruthy subnetId2 then
    let sid := subnetId2.getD ""
    let call := Call.describeSubnets [sid]
    match d.world.ec2DescribeSubnets [sid] with
    | .ok subs => (jsOr ((subs.head?).bind fun s => s.vpcId) vpcId1, [call], ([] : List String))
    | .error e => (vpcId1, [call], dbeD d "DescribeSubnets" e)
  else (vpcId1, [], [])

/-- Lines 553–575: describe and enrich the VPC once an id is known. -/
def vpcDescribeStep (d : Deps) (vpcId2 : Option String) :
    Option VpcOut × List Call × List String :=
  if jsTruthy vpcId2 then
    let vid := vpcId2.getD ""
    let call := Call.describeVpcs [vid]
    match d.world.ec2DescribeVpcs [vid] with
    | .ok vpcs =>
      match vpcs.head? with
      | some v =>
        let nm := ((v.tags.getD []).find? fun t => t.key == some "Name").bind fun t => t.value
        let ipv6 := (v.ipv6Assocs.find? fun a => a.getD "" ≠ "").bind id
        (some { vpcId := v.vpcId, name := nm, cidrBlock := v.cidrBlock,
                ipv6CidrBlock := ipv6, state := v.state,
                dhcpOptionsId := v.dhcpOptionsId, tags := v.tags },
          [call], ([] : List String))
      | none => (none, [call], [])
    | .error e => (none, [call], dbeD d "DescribeVpcs" e)
  else (none, [], [])

/-- Lines 511–578: the VPC derivation cascade (instance → ENI → CE subnet),
then the enriching `DescribeVpcs` call. -/
def vpcStage (d : Deps) (ec2Instance : Option Ec2Instance) (container : Option ContainerDetail)
    (computeEnvironment : Option ComputeEnv) :
    Option VpcOut × List Call × List String :=
  let vpcId0 := ec2Instance.bind fun i => i.vpcId
  let subnetId0 := ec2Instance.bind fun i => i.subnetId
  let nis := (container.map fun c => c.networkInterfaces).getD []
  let eniStep := vpcEniStep d vpcId0 subnetId0 nis
  let vpcId1 := eniStep.1.1
  let subnetId1 := eniStep.1.2
  let subnetId2 :=
    if !jsTruthy vpcId1 && !jsTruthy subnetId1 then
      match computeEnvironment.bind fun c => c.computeResourcesSubnets with
      | some (s :: _) => some s
      | _ => subnetId1
    else subnetId1
  let subnetStep := vpcSubnetStep d vpcId1 subnetId2
  let vpcStep := vpcDescribeStep d subnetStep.1
  (vpcStep.1, eniStep.2.1 ++ subnetStep.2.1 ++ vpcStep.2.1,
    eniStep.2.2 ++ subnetStep.2.2 ++ vpcStep.2.2)

/-- Lines 580–599: the bounded log fetch — the last `logLines` fetched
events, trimmed, empties dropped. -/
def logStage (d : Deps) (logGroup : String) (logStreamName : Option String) (logLines : Int) :
    Option (List String) × List Call × List String :=
  if jsTruthy logStreamName then
    let s := logStreamName.getD ""
    let call := Call.getLogEvents logGroup s logLines false
    match d.world.logsGetLogEvents logGroup s logLines false with
    | .ok evs =>
      (some (((takeRight logLines.toNat evs).map fun e => jsTrim (e.message.getD "")).filter
          fun m => m ≠ ""),
        [call], [])
    | .error e => (none, [call], dbeD d "GetLogEvents" e)
  else (none, [], [])

/-! Section: the standalone `resolveTask` helper (lines 130–220)

This function implements the hint → parsed-ARN → parsed-name →
no-cluster → enumerate → startedBy order, but is never called by
`resolveJobChain` (which inlines its own, differently-ordered chain
above). It is embedded for completeness. -/

/-- Lines 163–174: the loop over the prepared `tries` list. -/
def resolveTaskTryLoop (d : Deps) (tA : String) :
    List (String × Option String) → Option (EcsTask × Option String) × List Call × List String
  | [] => (none, [], [])
  | (label, cl) :: rest =>
    let dbgs := dbgD d "ecs.try" label
    let call := Call.describeTasks cl [tA]
    match d.world.ecsDescribeTasks cl [tA] with
    | .ok (tk :: _) => (some (tk, jsOr tk.clusterArn cl), [call], dbgs)
    | .ok [] =>
      let r := resolveTaskTryLoop d tA rest
      (r.1, call :: r.2.1, dbgs ++ r.2.2)
    | .error e =>
      let r := resolveTaskTryLoop d tA rest
      (r.1, call :: r.2.1, dbgs ++ absorbD d label e ++ r.2.2)

/-- Lines 179–190: the per-cluster loop of the enumerate pass. -/
def resolveTaskEnumLoop (d : Deps) (tA : String) :
    List String → Option (EcsTask × String) × List Call × List String
  | [] => (none, [], [])
  | c :: rest =>
    let dbgs := dbgD d "ecs.try" ("DescribeTasks(enumerated=" ++ c ++ ")")
    let call := Call.describeTasks (some c) [tA]
    match d.world.ecsDescribeTasks (some c) [tA] with
    | .ok (tk :: _) => (some (tk, c), [call], dbgs)
    | .ok [] =>
      let r := resolveTaskEnumLoop d tA rest
      (r.1, call :: r.2.1, dbgs ++ r.2.2)
    | .error e =>
      let r := resolveTaskEnumLoop d tA rest
      (r.1, call :: r.2.1, dbgs ++ absorbD d "DescribeTasks(enumerated)" e ++ r.2.2)

/-- Lines 198–213: the per-cluster loop of the startedBy pass. -/
def resolveTaskStartedByLoop (d : Deps) (jobId : String) :
    List String → Option (EcsTask × String) × List Call × List String
  | [] => (none, [], [])
  | c :: rest =>
    let call1 := Call.listTasks c (some jobId) 100
    match d.world.ecsListTasks c (some jobId) 100 with
    | .ok arns =>
      let dbgs := dbgD d "ecs.startedBy.result"
        ("cluster=" ++ c ++ " count=" ++ toString arns.length)
      match arns with
      | [] =>
        let r := resolveTaskStartedByLoop d jobId rest
        (r.1, call1 :: r.2.1, dbgs ++ r.2.2)
      | a :: more =>
        let call2 := Call.describeTasks (some c) (a :: more)
        match d.world.ecsDescribeTasks (some c) (a :: more) with
        | .ok (tk :: _) => (some (tk, c), [call1, call2], dbgs)
        | .ok [] =>
          let r := resolveTaskStartedByLoop d jobId rest
          (r.1, call1 :: call2 :: r.2.1, dbgs ++ r.2.2)
        | .error e =>
          let r := resolveTaskStartedByLoop d jobId rest
          (r.1, call1 :: call2 :: r.2.1,
            dbgs ++ absorbD d "List/Describe by startedBy" e ++ r.2.2)
    | .error e =>
      let r := resolveTaskStartedByLoop d jobId rest
      (r.1, call1 :: r.2.1, absorbD d "List/Describe by startedBy" e ++ r.2.2)

/-- Lines 130–220: `resolveTask` — layered fallbacks in the order hint,
parsed ARN, parsed name, no cluster, enumerate, startedBy; first success
wins.  The non-null assertion `taskArn!` of an absent task ARN is
modelled as `""`. -/
def resolveTask (d : Deps) (jobId : String) (taskArn hintedClusterArn : Option String) :
    (Option EcsTask × Option String) × List Call × List String :=
  let tA := taskArn.getD ""
  let parsedName := clusterFromTaskArn taskArn
  let parsedArn := clusterArnFromTaskArn taskArn
  let tries : List (String × Option String) :=
    (if jsTruthy hintedClusterArn then
        [("DescribeTasks(hint=" ++ optStr hintedClusterArn ++ ")", hintedClusterArn)]
      else []) ++
    (if jsTruthy parsedArn then
        [("DescribeTasks(parsedArn=" ++ optStr parsedArn ++ ")", parsedArn)]
      else []) ++
    (if jsTruthy parsedName then
        [("DescribeTasks(parsedName=" ++ optStr parsedName ++ ")", parsedName)]
      else []) ++
    [("DescribeTasks(noCluster)", (none : Option String))]
  let p1 := resolveTaskTryLoop d tA tries
  match p1.1 with
  | some r => ((some r.1, r.2), p1.2.1, p1.2.2)
  | none =>
    let p2 := match d.world.ecsListClusters with
      | .ok arns =>
        let r := resolveTaskEnumLoop d tA arns
        (r.1, Call.listClusters :: r.2.1, r.2.2)
      | .error e => (none, [Call.listClusters], dbeD d "ListClusters" e)
    match p2.1 with
    | some r => ((some r.1, some r.2), p1.2.1 ++ p2.2.1, p1.2.2 ++ p2.2.2)
    | none =>
      let p3 := match d.world.ecsListClusters with
        | .ok arns =>
          let r := resolveTaskStartedByLoop d jobId arns
          (r.1, Call.listClusters :: r.2.1, r.2.2)
        | .error e => (none, [Call.listClusters], dbeD d "ListClusters(startedBy path)" e)
      match p3.1 with
      | some r => ((some r.1, some r.2), p1.2.1 ++ p2.2.1 ++ p3.2.1, p1.2.2 ++ p2.2.2 ++ p3.2.2)
      | none =>
        ((none, none), p1.2.1 ++ p2.2.1 ++ p3.2.1,
          p1.2.2 ++ p2.2.2 ++ p3.2.2 ++ dbgD d "ecs.unresolvedTaskArn" (optStr taskArn))

/-! Section: the composite `resolveJobChain` (lines 223–619) -/

/-- The composite record the resolver returns. -/
structure JobChain where
  job : Job
  container : Option ContainerDetail
  ecsClusterArn : Option String
  taskArn : Option String
  containerInstanceArn : Option String
  computeEnvironmentArn : Option String
  computeEnvironment : Option ComputeEnv
  logStreamName : Option String
  image : Option String
  command : Option (List String)
  environment : List (String × Option String)
  ecsTask : Option EcsTask
  ec2InstanceId : Option String
  ec2Instance : Option Ec2Instance
  lastLogLines : Option (List String)
  vpc : Option VpcOut
deriving DecidableEq

/-- Model of `resolveJobChain(d, jobId, opts)`: the whole resolution.  Returns the
result (the thrown `Job not found` error, or the chain), the full
ordered trace of service calls, and the debug lines emitted. -/
def resolveJobChain (d : Deps) (jobId : String) (opts : Opts) :
    Except String JobChain × List Call × List String :=
  let logGroup := effLogGroup opts
  let logLines := effLogLines opts
  let call0 := Call.describeJobs [jobId]
  match d.world.batchDescribeJobs [jobId] with
  | .error e => (.error e, [call0], [])
  | .ok jobs =>
    match jobs.head? with
    | none => (.error ("Job not found: " ++ jobId), [call0], [])
    | some job =>
      let plat := job.platformCapabilities
      let isFargateJob := plat.contains "FARGATE"
      let isEksJob := job.eksProperties || decide (0 < job.eksAttempts.length)
      let diags0 :=
        dbgD d "platformCapabilities" (String.intercalate "," plat) ++
        dbgD d "isFargateJob" (toString isFargateJob) ++
        dbgD d "isEksJob" (toString isEksJob)
      let attemptContainer := (lastElem job.attempts).bind fun a => a.container
      let jobContainer := job.container
      let container := attemptContainer <|> jobContainer
      let taskArn :=
        (attemptContainer.bind fun c => c.taskArn) <|> (jobContainer.bind fun c => c.taskArn)
      let logStreamName :=
        (attemptContainer.bind fun c => c.logStreamName) <|>
          (jobContainer.bind fun c => c.logStreamName)
      let image := jobContainer.bind fun c => c.image
      let command := jobContainer.bind fun c => c.command
      let environment := envReduce ((jobContainer.bind fun c => c.environment).getD [])
      let diags1 :=
        dbgD d "attempts.count" (toString job.attempts.length) ++
        dbgD d "attempt.container.hasTaskArn"
          (toString (jsTruthy (attemptContainer.bind fun c => c.taskArn))) ++
        dbgD d "attempt.container.hasENIs"
          (toString (decide (0 < ((attemptContainer.map fun c => c.networkInterfaces).getD []).length))) ++
        dbgD d "job.container.taskArn"
          (toString (jsTruthy (jobContainer.bind fun c => c.taskArn))) ++
        dbgD d "job.queue" (optStr job.jobQueue) ++
        dbgD d "region" d.region
      let hintR := hintFromQueue d job.jobQueue
      let ecsClusterArn0 := hintR.1
      let diags2 := dbgD d "ecsClusterArn_hint_from_CE" (optStr ecsClusterArn0)
      let ciIn :=
        (attemptContainer.bind fun c => c.containerInstanceArn) <|>
          (jobContainer.bind fun c => c.containerInstanceArn)
      let tR := taskStage d job.jobId taskArn ecsClusterArn0 ciIn
      let ecsTask := tR.1.1
      let ecsClusterArn := tR.1.2.1
      let containerInstanceArn := tR.1.2.2
      let ciR := ciStage d isFargateJob containerInstanceArn ecsClusterArn
      let eniR := eniStage d ciR.1 container
      let ec2InstanceId := eniR.1
      let instR := instStage d ec2InstanceId
      let ec2Instance := instR.1
      let ceR := ceStage d job.computeEnvironment job.jobQueue ecsClusterArn
      let vpcR := vpcStage d ec2Instance container ceR.1.2
      let logR := logStage d logGroup logStreamName logLines
      (.ok { job := job, container := container, ecsClusterArn := ecsClusterArn,
             taskArn := taskArn, containerInstanceArn := containerInstanceArn,
             computeEnvironmentArn := ceR.1.1, computeEnvironment := ceR.1.2,
             logStreamName := logStreamName, image := image, command := command,
             environment := environment, ecsTask := ecsTask,
             ec2InstanceId := ec2InstanceId, ec2Instance := ec2Instance,
             lastLogLines := logR.1, vpc := vpcR.1 },
       call0 :: (hintR.2.1 ++ tR.2.1 ++ ciR.2.1 ++ eniR.2.1 ++ instR.2.1 ++ ceR.2.1 ++
         vpcR.2.1 ++ logR.2.1),
       diags0 ++ diags1 ++ hintR.2.2 ++ diags2 ++ tR.2.2 ++ ciR.2.2 ++ eniR.2.2 ++
         instR.2.2 ++ ceR.2.2 ++ vpcR.2.2 ++ logR.2.2)

/-- Modelled from the spec's words (refinement comparison only, not from
the source): "given a log-stream name and a line count N, fetch events
and return the last N non-empty, trimmed lines in chronological order". -/
def specLastNonEmptyLines (events : List LogEvent) (n : Nat) : List String :=
  takeRight n ((events.map fun e => jsTrim (e.message.getD "")).filter fun m => m ≠ "")

/-! Section: concrete fixture worlds (inputs for concrete runs) -/

/-- The task ARN of the spec's scenario. -/
def arnTask : String := "arn:aws:ecs:us-west-2:111122223333:task/my-cluster/abcd"

/-- The cluster ARN reconstructible from `arnTask`. -/
def arnParsedCluster : String := "arn:aws:ecs:us-west-2:111122223333:cluster/my-cluster"

/-- A distinct cluster ARN used as the compute-environment hint. -/
def arnHintCluster : String := "arn:aws:ecs:us-west-2:111122223333:cluster/hint-cluster"

/-- A world where every service answers with an empty result. -/
def emptyWorld : World where
  batchDescribeJobs := fun _ => .ok []
  batchDescribeJobQueues := fun _ => .ok []
  batchDescribeComputeEnvironments := fun _ => .ok []
  ecsDescribeTasks := fun _ _ => .ok []
  ecsListClusters := .ok []
  ecsListTasks := fun _ _ _ => .ok []
  ecsDescribeContainerInstances := fun _ _ => .ok []
  ec2DescribeNetworkInterfaces := fun _ => .ok []
  ec2DescribeInstances := fun _ => .ok []
  ec2DescribeSubnets := fun _ => .ok []
  ec2DescribeVpcs := fun _ => .ok []
  logsGetLogEvents := fun _ _ _ _ => .ok []

/-- Deps over `emptyWorld`, debug off. -/
def depsEmpty : Deps := { region := "us-west-2", world := emptyWorld, debug := false }

/-- The live task of fixture world 1. -/
def w1Task : EcsTask := { taskArn := some arnTask, clusterArn := some arnParsedCluster }

/-- Fixture job 1: one attempt whose container carries `arnTask`. -/
def w1Job : Job :=
  { jobId := some "job-1", jobQueue := some "q1",
    attempts := [{ container := some { taskArn := some arnTask } }] }

/-- Fixture compute environment linked to the hint cluster. -/
def w1CE : ComputeEnv :=
  { computeEnvironmentArn := some "ceA", ecsClusterArn := some arnHintCluster }

/-- Fixture world 1: the hint resolves to `arnHintCluster`, while the task
lives on `arnParsedCluster` (describable only there). -/
def w1 : World :=
  { emptyWorld with
    batchDescribeJobs := fun js => if js = ["job-1"] then .ok [w1Job] else .ok []
    batchDescribeJobQueues := fun qs =>
      if qs = [some "q1"] then .ok [{ computeEnvironmentOrder := [some "ceA"] }] else .ok []
    batchDescribeComputeEnvironments := fun ces =>
      if ces = ["ceA"] then .ok [w1CE] else .ok []
    ecsDescribeTasks := fun cl ts =>
      if cl = some arnParsedCluster ∧ ts = [arnTask] then .ok [w1Task] else .ok [] }

/-- Deps over fixture world 1. -/
def depsW1 : Deps := { region := "us-west-2", world := w1, debug := false }

/-- The task of fixture world 6. -/
def w6Task : EcsTask := { taskArn := some arnTask, clusterArn := some arnParsedCluster }

/-- Fixture world 6: the parsed-cluster lookup fails with the expected
mismatch signature, the hinted-cluster lookup fails with another error,
and the bare-name lookup succeeds. -/
def w6 : World :=
  { emptyWorld with
    ecsDescribeTasks := fun cl ts =>
      if cl = some arnParsedCluster then .error "cluster identifiers mismatch"
      else if cl = some arnHintCluster then .error "boom"
      else if cl = some "my-cluster" ∧ ts = [arnTask] then .ok [w6Task]
      else .ok [] }

/-- Deps over fixture world 6, with the debug toggle ON. -/
def depsW6 : Deps := { region := "us-west-2", world := w6, debug := true }

/-- Fixture job 7: no task ARN anywhere (declared container only carries an image). -/
def w7Job : Job :=
  { jobId := some "job-7", jobQueue := some "q7", container := some { image := some "img" } }

/-- Fixture world 7: no task ARN, but the queue chain yields a cluster hint. -/
def w7 : World :=
  { emptyWorld with
    batchDescribeJobs := fun js => if js = ["job-7"] then .ok [w7Job] else .ok []
    batchDescribeJobQueues := fun qs =>
      if qs = [some "q7"] then .ok [{ computeEnvironmentOrder := [some "ceB"] }] else .ok []
    batchDescribeComputeEnvironments := fun ces =>
      if ces = ["ceB"] then
        .ok [{ computeEnvironmentArn := some "ceB", ecsClusterArn := some arnHintCluster }]
      else .ok [] }

/-- Deps over fixture world 7. -/
def depsW7 : Deps := { region := "us-west-2", world := w7, debug := false }

/-- Fixture log stream 4: three events, the last one whitespace-only. -/
def w4Stream : List LogEvent :=
  [{ message := some "a" }, { message := some "b" }, { message := some " " }]

/-- Fixture job 4: its declared container names log stream `s`. -/
def w4Job : Job :=
  { jobId := some "job-4", container := some { logStreamName := some "s" } }

/-- Fixture world 4: an honest tail service — `GetLogEvents` with
`startFromHead:false` and a limit returns the last `limit` events of
the stream. -/
def w4 : World :=
  { emptyWorld with
    batchDescribeJobs := fun js => if js = ["job-4"] then .ok [w4Job] else .ok []
    logsGetLogEvents := fun g s lim _ =>
      if g = "/aws/batch/job" ∧ s = "s" then .ok (takeRight lim.toNat w4Stream)
      else if s = "t" then .ok [{ message := some "x" }]
      else .ok [] }

/-- Deps over fixture world 4. -/
def depsW4 : Deps := { region := "us-west-2", world := w4, debug := false }

/-- Options requesting the last 2 log lines. -/
def opts4 : Opts := { logLines := some 2 }

/-- Fixture job F: a Fargate job that nevertheless carries a
container-instance reference and a network interface. -/
def wFarJob : Job :=
  { jobId := some "job-f", platformCapabilities := ["EC2", "FARGATE"],
    attempts := [{ container := some (
      { containerInstanceArn :=
          some "arn:aws:ecs:us-west-2:111122223333:container-instance/my-cluster/beef",
        networkInterfaces := [some "eni-1"] } : ContainerDetail) }] }

/-- Fixture world F: the network interface of the Fargate job is
describable and attached to instance `i-0abc`, which is describable
too. -/
def wFar : World :=
  { emptyWorld with
    batchDescribeJobs := fun js => if js = ["job-f"] then .ok [wFarJob] else .ok []
    ec2DescribeNetworkInterfaces := fun ids =>
      if ids = ["eni-1"] then
        .ok [{ attachmentInstanceId := some "i-0abc", vpcId := some "vpc-f",
               subnetId := some "sub-f" }]
      else .ok []
    ec2DescribeInstances := fun ids =>
      if ids = ["i-0abc"] then
        .ok [{ instances := [{ vpcId := some "vpc-f", subnetId := some "sub-f" }] }]
      else .ok [] }

/-- Deps over fixture world F. -/
def depsWFar : Deps := { region := "us-west-2", world := wFar, debug := false }

/-- Fixture compute environment 1 of world 5 (first in queue order, no
cluster match). -/
def w5CE1 : ComputeEnv :=
  { computeEnvironmentArn := some "ce1", ecsClusterArn := some arnHintCluster }

/-- Fixture compute environment 2 of world 5 (second in queue order,
linked to the resolved cluster). -/
def w5CE2 : ComputeEnv :=
  { computeEnvironmentArn := some "ce2", ecsClusterArn := some arnParsedCluster }

/-- Fixture world 5: a queue with two compute environments; only the
second one's cluster matches. -/
def w5 : World :=
  { emptyWorld with
    batchDescribeJobQueues := fun qs =>
      if qs = [some "q5"] then .ok [{ computeEnvironmentOrder := [some "ce1", some "ce2"] }]
      else .ok []
    batchDescribeComputeEnvironments := fun ces =>
      if ces = ["ce1", "ce2"] then .ok [w5CE1, w5CE2] else .ok [] }

/-- Deps over fixture world 5. -/
def depsW5 : Deps := { region := "us-west-2", world := w5, debug := false }

/-! Section: helper lemmas.

First, machinery about the kinds of calls a stage can issue. -/

theorem all_of_kinds {l : List Call} {ks : List CallKind}
    (h : (l.all fun c => decide (c.kind ∈ ks)) = true)
    (p : Call → Bool) (hp : ∀ c : Call, c.kind ∈ ks → p c = true) :
    l.all p = true := by
  rw [List.all_eq_true] at h ⊢
  intro c hc
  exact hp c (of_decide_eq_true (h c hc))

theorem kinds_append {l1 l2 : List Call} {ks : List CallKind}
    (h1 : (l1.all fun c => decide (c.kind ∈ ks)) = true)
    (h2 : (l2.all fun c => decide (c.kind ∈ ks)) = true) :
    ((l1 ++ l2).all fun c => decide (c.kind ∈ ks)) = true := by
  rw [List.all_append, h1, h2]
  rfl

theorem kinds_ite {α : Type} {ks : List CallKind} (P : Prop) [Decidable P]
    (X : α × List Call × List String) (v : α)
    (h : (X.2.1.all fun c => decide (c.kind ∈ ks)) = true) :
    (((if P then X else (v, [], [])).2.1).all fun c => decide (c.kind ∈ ks)) = true := by
  split
  · exact h
  · rfl

theorem hintFromQueue_kinds (d : Deps) (q : Option String) :
    ((hintFromQueue d q).2.1.all fun c =>
      decide (c.kind ∈ [CallKind.batchQueues, CallKind.batchCEs])) = true := by
  unfold hintFromQueue
  dsimp only
  repeat' split
  all_goals rfl

theorem enumLoop_kinds (d : Deps) (tArn : String) (l : List String) :
    ((enumLoop d tArn l).2.1.all fun c =>
      decide (c.kind ∈ [CallKind.ecsTasks, CallKind.ecsListClusters, CallKind.ecsListTasks])) =
      true := by
  induction l with
  | nil => rfl
  | cons c rest ih =>
    unfold enumLoop
    dsimp only
    repeat' split
    all_goals simp only [List.all_cons, ih, Bool.and_true]
    all_goals rfl

theorem startedByLoop_kinds (d : Deps) (jid : Option String) (l : List String) :
    ((startedByLoop d jid l).2.1.all fun c =>
      decide (c.kind ∈ [CallKind.ecsTasks, CallKind.ecsListClusters, CallKind.ecsListTasks])) =
      true := by
  induction l with
  | nil => rfl
  | cons c rest ih =>
    unfold startedByLoop
    dsimp only
    repeat' split
    all_goals simp only [List.all_cons, ih, Bool.and_true]
    all_goals rfl

theorem taskStepParsedArn_kinds (d : Deps) (t : String) (p cIn : Option String) :
    ((taskStepParsedArn d t p cIn).2.1.all fun c =>
      decide (c.kind ∈ [CallKind.ecsTasks, CallKind.ecsListClusters, CallKind.ecsListTasks])) =
      true := by
  unfold taskStepParsedArn
  dsimp only
  repeat' split
  all_goals rfl

theorem taskStepHinted_kinds (d : Deps) (t : String) (cl : Option String) :
    ((taskStepHinted d t cl).2.1.all fun c =>
      decide (c.kind ∈ [CallKind.ecsTasks, CallKind.ecsListClusters, CallKind.ecsListTasks])) =
      true := by
  unfold taskStepHinted
  dsimp only
  repeat' split
  all_goals rfl

theorem taskStepParsedName_kinds (d : Deps) (t : String) (nm : Option String) :
    ((taskStepParsedName d t nm).2.1.all fun c =>
      decide (c.kind ∈ [CallKind.ecsTasks, CallKind.ecsListClusters, CallKind.ecsListTasks])) =
      true := by
  unfold taskStepParsedName
  dsimp only
  repeat' split
  all_goals rfl

theorem taskStepNoCluster_kinds (d : Deps) (t : String) :
    ((taskStepNoCluster d t).2.1.all fun c =>
      decide (c.kind ∈ [CallKind.ecsTasks, CallKind.ecsListClusters, CallKind.ecsListTasks])) =
      true := by
  unfold taskStepNoCluster
  dsimp only
  repeat' split
  all_goals rfl

theorem taskStepEnum_kinds (d : Deps) (t : String) :
    ((taskStepEnum d t).2.1.all fun c =>
      decide (c.kind ∈ [CallKind.ecsTasks, CallKind.ecsListClusters, CallKind.ecsListTasks])) =
      true := by
  unfold taskStepEnum
  dsimp only
  split
  · simp only [List.all_cons, enumLoop_kinds, Bool.and_true]
    rfl
  · rfl

theorem taskStepStartedBy_kinds (d : Deps) (jid : Option String) :
    ((taskStepStartedBy d jid).2.1.all fun c =>
      decide (c.kind ∈ [CallKind.ecsTasks, CallKind.ecsListClusters, CallKind.ecsListTasks])) =
      true := by
  unfold taskStepStartedBy
  dsimp only
  split
  · simp only [List.all_cons, startedByLoop_kinds, Bool.and_true]
    rfl
  · rfl

theorem taskStage_kinds (d : Deps) (jid taskArn clusterIn ciIn : Option String) :
    ((taskStage d jid taskArn clusterIn ciIn).2.1.all fun c =>
      decide (c.kind ∈ [CallKind.ecsTasks, CallKind.ecsListClusters, CallKind.ecsListTasks])) =
      true := by
  unfold taskStage
  split
  case h_2 => rfl
  case h_1 t =>
    split
    case isFalse => rfl
    case isTrue =>
      unfold taskChain
      dsimp only
      split
      all_goals
        exact kinds_append (kinds_append (kinds_append (kinds_append (kinds_append
          (taskStepParsedArn_kinds d t _ _) (taskStepHinted_kinds d t _))
          (kinds_ite _ _ _ (taskStepParsedName_kinds d t _)))
          (kinds_ite _ _ _ (taskStepNoCluster_kinds d t)))
          (kinds_ite _ _ _ (taskStepEnum_kinds d t)))
          (kinds_ite _ _ _ (taskStepStartedBy_kinds d jid))

theorem ciStage_kinds (d : Deps) (f : Bool) (ci cl : Option String) :
    ((ciStage d f ci cl).2.1.all fun c => decide (c.kind ∈ [CallKind.ecsCIs])) = true := by
  unfold ciStage
  dsimp only
  repeat' split
  all_goals rfl

theorem eniStage_kinds (d : Deps) (iid : Option String) (cont : Option ContainerDetail) :
    ((eniStage d iid cont).2.1.all fun c => decide (c.kind ∈ [CallKind.ec2ENIs])) = true := by
  unfold eniStage
  dsimp only
  repeat' split
  all_goals rfl

theorem instStage_kinds (d : Deps) (iid : Option String) :
    ((instStage d iid).2.1.all fun c => decide (c.kind ∈ [CallKind.ec2Insts])) = true := by
  unfold instStage
  dsimp only
  repeat' split
  all_goals rfl

theorem ceStage_kinds (d : Deps) (jobCE jobQueue cl : Option String) :
    ((ceStage d jobCE jobQueue cl).2.1.all fun c =>
      decide (c.kind ∈ [CallKind.batchQueues, CallKind.batchCEs])) = true := by
  unfold ceStage
  dsimp only
  repeat' split
  all_goals rfl

theorem vpcEniStep_kinds (d : Deps) (v s : Option String) (nis : List (Option String)) :
    ((vpcEniStep d v s nis).2.1.all fun c =>
      decide (c.kind ∈ [CallKind.ec2ENIs, CallKind.ec2Subnets, CallKind.ec2Vpcs])) = true := by
  unfold vpcEniStep
  dsimp only
  repeat' split
  all_goals rfl

theorem vpcSubnetStep_kinds (d : Deps) (v s : Option String) :
    ((vpcSubnetStep d v s).2.1.all fun c =>
      decide (c.kind ∈ [CallKind.ec2ENIs, CallKind.ec2Subnets, CallKind.ec2Vpcs])) = true := by
  unfold vpcSubnetStep
  dsimp only
  repeat' split
  all_goals rfl

theorem vpcDescribeStep_kinds (d : Deps) (v : Option String) :
    ((vpcDescribeStep d v).2.1.all fun c =>
      decide (c.kind ∈ [CallKind.ec2ENIs, CallKind.ec2Subnets, CallKind.ec2Vpcs])) = true := by
  unfold vpcDescribeStep
  dsimp only
  repeat' split
  all_goals rfl

theorem vpcStage_kinds (d : Deps) (i : Option Ec2Instance) (cont : Option ContainerDetail)
    (ce : Option ComputeEnv) :
    ((vpcStage d i cont ce).2.1.all fun c =>
      decide (c.kind ∈ [CallKind.ec2ENIs, CallKind.ec2Subnets, CallKind.ec2Vpcs])) = true := by
  unfold vpcStage
  dsimp only
  exact kinds_append (kinds_append (vpcEniStep_kinds d _ _ _) (vpcSubnetStep_kinds d _ _))
    (vpcDescribeStep_kinds d _)

theorem logStage_kinds (d : Deps) (g : String) (s : Option String) (n : Int) :
    ((logStage d g s n).2.1.all fun c => decide (c.kind ∈ [CallKind.logEvents])) = true := by
  unfold logStage
  dsimp only
  repeat' split
  all_goals rfl

/-- The log stage's trace, fully characterized. -/
theorem logStage_calls (d : Deps) (g : String) (s : Option String) (n : Int) :
    (logStage d g s n).2.1 =
      if jsTruthy s then [Call.getLogEvents g (s.getD "") n false] else [] := by
  unfold logStage
  dsimp only
  repeat' split
  all_goals rfl

/-! Next, debug-independence: each stage's value and trace do not depend
on the debug toggle (only its diagnostic output does). -/

theorem pair_eq_left {α β : Type} {a b : α} {c d : β} (h : (a, c) = (b, d)) : a = b := by
  injection h

theorem pair_eq_right {α β : Type} {a b : α} {c d : β} (h : (a, c) = (b, d)) : c = d := by
  injection h

theorem debug_ite_val {α β : Type} (P : Prop) [Decidable P]
    (X Y : α × List Call × β) (v : α × List Call × β)
    (h : X.1 = Y.1) : (if P then X else v).1 = (if P then Y else v).1 := by
  split <;> simp [h]

theorem debug_ite_calls {α β : Type} (P : Prop) [Decidable P]
    (X Y : α × List Call × β) (v : α × List Call × β)
    (h : X.2.1 = Y.2.1) : (if P then X else v).2.1 = (if P then Y else v).2.1 := by
  split <;> simp [h]

theorem hintFromQueue_debug (r : String) (w : World) (b : Bool) (q : Option String) :
    ((hintFromQueue ⟨r, w, b⟩ q).1, (hintFromQueue ⟨r, w, b⟩ q).2.1) =
      ((hintFromQueue ⟨r, w, false⟩ q).1, (hintFromQueue ⟨r, w, false⟩ q).2.1) := by
  unfold hintFromQueue
  dsimp only
  repeat' split
  all_goals rfl

theorem taskStepParsedArn_debug (r : String) (w : World) (b : Bool) (t : String)
    (p cIn : Option String) :
    ((taskStepParsedArn ⟨r, w, b⟩ t p cIn).1, (taskStepParsedArn ⟨r, w, b⟩ t p cIn).2.1) =
      ((taskStepParsedArn ⟨r, w, false⟩ t p cIn).1, (taskStepParsedArn ⟨r, w, false⟩ t p cIn).2.1) := by
  unfold taskStepParsedArn
  dsimp only
  repeat' split
  all_goals rfl

theorem taskStepHinted_debug (r : String) (w : World) (b : Bool) (t : String)
    (cl : Option String) :
    ((taskStepHinted ⟨r, w, b⟩ t cl).1, (taskStepHinted ⟨r, w, b⟩ t cl).2.1) =
      ((taskStepHinted ⟨r, w, false⟩ t cl).1, (taskStepHinted ⟨r, w, false⟩ t cl).2.1) := by
  unfold taskStepHinted
  dsimp only
  repeat' split
  all_goals rfl

theorem taskStepParsedName_debug (r : String) (w : World) (b : Bool) (t : String)
    (nm : Option String) :
    ((taskStepParsedName ⟨r, w, b⟩ t nm).1, (taskStepParsedName ⟨r, w, b⟩ t nm).2.1) =
      ((taskStepParsedName ⟨r, w, false⟩ t nm).1, (taskStepParsedName ⟨r, w, false⟩ t nm).2.1) := by
  unfold taskStepParsedName
  dsimp only
  repeat' split
  all_goals rfl

theorem taskStepNoCluster_debug (r : String) (w : World) (b : Bool) (t : String) :
    ((taskStepNoCluster ⟨r, w, b⟩ t).1, (taskStepNoCluster ⟨r, w, b⟩ t).2.1) =
      ((taskStepNoCluster ⟨r, w, false⟩ t).1, (taskStepNoCluster ⟨r, w, false⟩ t).2.1) := by
  unfold taskStepNoCluster
  dsimp only
  repeat' split
  all_goals rfl

theorem enumLoop_debug (r : String) (w : World) (b : Bool) (t : String) (l : List String) :
    ((enumLoop ⟨r, w, b⟩ t l).1, (enumLoop ⟨r, w, b⟩ t l).2.1) =
      ((enumLoop ⟨r, w, false⟩ t l).1, (enumLoop ⟨r, w, false⟩ t l).2.1) := by
  induction l with
  | nil => rfl
  | cons c rest ih =>
    have h1 : (enumLoop (⟨r, w, b⟩ : Deps) t rest).1 = (enumLoop ⟨r, w, false⟩ t rest).1 :=
      pair_eq_left ih
    have h2 : (enumLoop (⟨r, w, b⟩ : Deps) t rest).2.1 = (enumLoop ⟨r, w, false⟩ t rest).2.1 :=
      pair_eq_right ih
    unfold enumLoop
    dsimp only
    repeat' split
    all_goals simp [h1, h2]

theorem startedByLoop_debug (r : String) (w : World) (b : Bool) (jid : Option String)
    (l : List String) :
    ((startedByLoop ⟨r, w, b⟩ jid l).1, (startedByLoop ⟨r, w, b⟩ jid l).2.1) =
      ((startedByLoop ⟨r, w, false⟩ jid l).1, (startedByLoop ⟨r, w, false⟩ jid l).2.1) := by
  induction l with
  | nil => rfl
  | cons c rest ih =>
    have h1 : (startedByLoop (⟨r, w, b⟩ : Deps) jid rest).1 =
        (startedByLoop ⟨r, w, false⟩ jid rest).1 := pair_eq_left ih
    have h2 : (startedByLoop (⟨r, w, b⟩ : Deps) jid rest).2.1 =
        (startedByLoop ⟨r, w, false⟩ jid rest).2.1 := pair_eq_right ih
    unfold startedByLoop
    dsimp only
    repeat' split
    all_goals simp [h1, h2]

theorem taskStepEnum_debug (r : String) (w : World) (b : Bool) (t : String) :
    ((taskStepEnum ⟨r, w, b⟩ t).1, (taskStepEnum ⟨r, w, b⟩ t).2.1) =
      ((taskStepEnum ⟨r, w, false⟩ t).1, (taskStepEnum ⟨r, w, false⟩ t).2.1) := by
  have h1 : ∀ l, (enumLoop (⟨r, w, b⟩ : Deps) t l).1 = (enumLoop ⟨r, w, false⟩ t l).1 :=
    fun l => pair_eq_left (enumLoop_debug r w b t l)
  have h2 : ∀ l, (enumLoop (⟨r, w, b⟩ : Deps) t l).2.1 = (enumLoop ⟨r, w, false⟩ t l).2.1 :=
    fun l => pair_eq_right (enumLoop_debug r w b t l)
  unfold taskStepEnum
  dsimp only
  repeat' split
  all_goals simp [h1, h2]

theorem taskStepStartedBy_debug (r : String) (w : World) (b : Bool) (jid : Option String) :
    ((taskStepStartedBy ⟨r, w, b⟩ jid).1, (taskStepStartedBy ⟨r, w, b⟩ jid).2.1) =
      ((taskStepStartedBy ⟨r, w, false⟩ jid).1, (taskStepStartedBy ⟨r, w, false⟩ jid).2.1) := by
  have h1 : ∀ l, (startedByLoop (⟨r, w, b⟩ : Deps) jid l).1 =
      (startedByLoop ⟨r, w, false⟩ jid l).1 :=
    fun l => pair_eq_left (startedByLoop_debug r w b jid l)
  have h2 : ∀ l, (startedByLoop (⟨r, w, b⟩ : Deps) jid l).2.1 =
      (startedByLoop ⟨r, w, false⟩ jid l).2.1 :=
    fun l => pair_eq_right (startedByLoop_debug r w b jid l)
  unfold taskStepStartedBy
  dsimp only
  repeat' split
  all_goals simp [h1, h2]

theorem taskChain_debug (r : String) (w : World) (b : Bool) (jid : Option String) (t : String)
    (clusterIn ciIn : Option String) :
    ((taskChain ⟨r, w, b⟩ jid t clusterIn ciIn).1, (taskChain ⟨r, w, b⟩ jid t clusterIn ciIn).2.1) =
      ((taskChain ⟨r, w, false⟩ jid t clusterIn ciIn).1,
        (taskChain ⟨r, w, false⟩ jid t clusterIn ciIn).2.1) := by
  unfold taskChain
  dsimp only
  rw [pair_eq_left (taskStepParsedArn_debug r w b t (clusterArnFromTaskArn (some t)) clusterIn),
    pair_eq_right (taskStepParsedArn_debug r w b t (clusterArnFromTaskArn (some t)) clusterIn)]
  rw [show ∀ cl, (taskStepHinted (⟨r, w, b⟩ : Deps) t cl).1 = (taskStepHinted ⟨r, w, false⟩ t cl).1
      from fun cl => pair_eq_left (taskStepHinted_debug r w b t cl)]
  rw [show ∀ cl, (taskStepHinted (⟨r, w, b⟩ : Deps) t cl).2.1 =
        (taskStepHinted ⟨r, w, false⟩ t cl).2.1
      from fun cl => pair_eq_right (taskStepHinted_debug r w b t cl)]
  rw [debug_ite_val _ _ _ _
      (pair_eq_left (taskStepParsedName_debug r w b t (clusterFromTaskArn (some t)))),
    debug_ite_calls _ _ _ _
      (pair_eq_right (taskStepParsedName_debug r w b t (clusterFromTaskArn (some t))))]
  rw [debug_ite_val _ _ _ _ (pair_eq_left (taskStepNoCluster_debug r w b t)),
    debug_ite_calls _ _ _ _ (pair_eq_right (taskStepNoCluster_debug r w b t))]
  rw [debug_ite_val _ _ _ _ (pair_eq_left (taskStepEnum_debug r w b t)),
    debug_ite_calls _ _ _ _ (pair_eq_right (taskStepEnum_debug r w b t))]
  rw [debug_ite_val _ _ _ _ (pair_eq_left (taskStepStartedBy_debug r w b jid)),
    debug_ite_calls _ _ _ _ (pair_eq_right (taskStepStartedBy_debug r w b jid))]
  split
  all_goals rfl

theorem taskStage_debug (r : String) (w : World) (b : Bool) (jid taskArn clusterIn ciIn : Option String) :
    ((taskStage ⟨r, w, b⟩ jid taskArn clusterIn ciIn).1,
        (taskStage ⟨r, w, b⟩ jid taskArn clusterIn ciIn).2.1) =
      ((taskStage ⟨r, w, false⟩ jid taskArn clusterIn ciIn).1,
        (taskStage ⟨r, w, false⟩ jid taskArn clusterIn ciIn).2.1) := by
  unfold taskStage
  split
  case h_2 => rfl
  case h_1 t =>
    split
    · exact taskChain_debug r w b jid t clusterIn ciIn
    · rfl

theorem ciStage_debug (r : String) (w : World) (b : Bool) (f : Bool) (ci cl : Option String) :
    ((ciStage ⟨r, w, b⟩ f ci cl).1, (ciStage ⟨r, w, b⟩ f ci cl).2.1) =
      ((ciStage ⟨r, w, false⟩ f ci cl).1, (ciStage ⟨r, w, false⟩ f ci cl).2.1) := by
  unfold ciStage
  dsimp only
  repeat' split
  all_goals rfl

theorem eniStage_debug (r : String) (w : World) (b : Bool) (iid : Option String)
    (cont : Option ContainerDetail) :
    ((eniStage ⟨r, w, b⟩ iid cont).1, (eniStage ⟨r, w, b⟩ iid cont).2.1) =
      ((eniStage ⟨r, w, false⟩ iid cont).1, (eniStage ⟨r, w, false⟩ iid cont).2.1) := by
  unfold eniStage
  dsimp only
  repeat' split
  all_goals rfl

theorem instStage_debug (r : String) (w : World) (b : Bool) (iid : Option String) :
    ((instStage ⟨r, w, b⟩ iid).1, (instStage ⟨r, w, b⟩ iid).2.1) =
      ((instStage ⟨r, w, false⟩ iid).1, (instStage ⟨r, w, false⟩ iid).2.1) := by
  unfold instStage
  dsimp only
  repeat' split
  all_goals rfl

theorem ceStage_debug (r : String) (w : World) (b : Bool) (jobCE jobQueue cl : Option String) :
    ((ceStage ⟨r, w, b⟩ jobCE jobQueue cl).1, (ceStage ⟨r, w, b⟩ jobCE jobQueue cl).2.1) =
      ((ceStage ⟨r, w, false⟩ jobCE jobQueue cl).1,
        (ceStage ⟨r, w, false⟩ jobCE jobQueue cl).2.1) := by
  unfold ceStage
  dsimp only
  repeat' split
  all_goals rfl

theorem vpcEniStep_debug (r : String) (w : World) (b : Bool) (v s : Option String)
    (nis : List (Option String)) :
    ((vpcEniStep ⟨r, w, b⟩ v s nis).1, (vpcEniStep ⟨r, w, b⟩ v s nis).2.1) =
      ((vpcEniStep ⟨r, w, false⟩ v s nis).1, (vpcEniStep ⟨r, w, false⟩ v s nis).2.1) := by
  unfold vpcEniStep
  dsimp only
  repeat' split
  all_goals rfl

theorem vpcSubnetStep_debug (r : String) (w : World) (b : Bool) (v s : Option String) :
    ((vpcSubnetStep ⟨r, w, b⟩ v s).1, (vpcSubnetStep ⟨r, w, b⟩ v s).2.1) =
      ((vpcSubnetStep ⟨r, w, false⟩ v s).1, (vpcSubnetStep ⟨r, w, false⟩ v s).2.1) := by
  unfold vpcSubnetStep
  dsimp only
  repeat' split
  all_goals rfl

theorem vpcDescribeStep_debug (r : String) (w : World) (b : Bool) (v : Option String) :
    ((vpcDescribeStep ⟨r, w, b⟩ v).1, (vpcDescribeStep ⟨r, w, b⟩ v).2.1) =
      ((vpcDescribeStep ⟨r, w, false⟩ v).1, (vpcDescribeStep ⟨r, w, false⟩ v).2.1) := by
  unfold vpcDescribeStep
  dsimp only
  repeat' split
  all_goals rfl

theorem vpcStage_debug (r : String) (w : World) (b : Bool) (i : Option Ec2Instance)
    (cont : Option ContainerDetail) (ce : Option ComputeEnv) :
    ((vpcStage ⟨r, w, b⟩ i cont ce).1, (vpcStage ⟨r, w, b⟩ i cont ce).2.1) =
      ((vpcStage ⟨r, w, false⟩ i cont ce).1, (vpcStage ⟨r, w, false⟩ i cont ce).2.1) := by
  unfold vpcStage
  dsimp only
  rw [show ∀ v s nis, (vpcEniStep (⟨r, w, b⟩ : Deps) v s nis).1 =
        (vpcEniStep ⟨r, w, false⟩ v s nis).1
      from fun v s nis => pair_eq_left (vpcEniStep_debug r w b v s nis)]
  rw [show ∀ v s nis, (vpcEniStep (⟨r, w, b⟩ : Deps) v s nis).2.1 =
        (vpcEniStep ⟨r, w, false⟩ v s nis).2.1
      from fun v s nis => pair_eq_right (vpcEniStep_debug r w b v s nis)]
  rw [show ∀ v s, (vpcSubnetStep (⟨r, w, b⟩ : Deps) v s).1 = (vpcSubnetStep ⟨r, w, false⟩ v s).1
      from fun v s => pair_eq_left (vpcSubnetStep_debug r w b v s)]
  rw [show ∀ v s, (vpcSubnetStep (⟨r, w, b⟩ : Deps) v s).2.1 =
        (vpcSubnetStep ⟨r, w, false⟩ v s).2.1
      from fun v s => pair_eq_right (vpcSubnetStep_debug r w b v s)]
  rw [show ∀ v, (vpcDescribeStep (⟨r, w, b⟩ : Deps) v).1 = (vpcDescribeStep ⟨r, w, false⟩ v).1
      from fun v => pair_eq_left (vpcDescribeStep_debug r w b v)]
  rw [show ∀ v, (vpcDescribeStep (⟨r, w, b⟩ : Deps) v).2.1 =
        (vpcDescribeStep ⟨r, w, false⟩ v).2.1
      from fun v => pair_eq_right (vpcDescribeStep_debug r w b v)]

theorem logStage_debug (r : String) (w : World) (b : Bool) (g : String) (s : Option String)
    (n : Int) :
    ((logStage ⟨r, w, b⟩ g s n).1, (logStage ⟨r, w, b⟩ g s n).2.1) =
      ((logStage ⟨r, w, false⟩ g s n).1, (logStage ⟨r, w, false⟩ g s n).2.1) := by
  unfold logStage
  dsimp only
  repeat' split
  all_goals rfl

/-! Miscellaneous helper lemmas. -/

/-- With no task ARN the task stage passes everything through and issues
no call. -/
theorem taskStage_none (d : Deps) (jid clusterIn ciIn : Option String) :
    taskStage d jid none clusterIn ciIn = ((none, clusterIn, ciIn), [], []) := rfl

/-- For a Fargate job, the container-instance stage does nothing at all. -/
theorem ciStage_fargate (d : Deps) (ci cl : Option String) :
    ciStage d true ci cl = (none, [], []) := by
  unfold ciStage
  simp

/-- Once the job record is found, the resolution always produces a chain
(no later failure can surface as an error). -/
theorem resolve_ok_of_found (d : Deps) (jobId : String) (o : Opts) (job : Job)
    (rest : List Job) (h : d.world.batchDescribeJobs [jobId] = .ok (job :: rest)) :
    ∃ ch, (resolveJobChain d jobId o).1 = .ok ch := by
  unfold resolveJobChain
  dsimp only
  rw [h]
  exact ⟨_, rfl⟩

theorem kinds_mem {l : List Call} {ks : List CallKind}
    (h : (l.all fun c => decide (c.kind ∈ ks)) = true) {c : Call} (hc : c ∈ l) :
    c.kind ∈ ks :=
  of_decide_eq_true (List.all_eq_true.mp h c hc)

theorem all_kinds_mono {l : List Call} {ks : List CallKind}
    (h : (l.all fun c => decide (c.kind ∈ ks)) = true)
    (q : CallKind → Bool) (hq : ∀ k ∈ ks, q k = true) :
    (l.all fun c => q c.kind) = true := by
  rw [List.all_eq_true] at h ⊢
  intro c hc
  exact hq c.kind (of_decide_eq_true (h c hc))

theorem all_append_of {l1 l2 : List Call} {p : Call → Bool}
    (h1 : l1.all p = true) (h2 : l2.all p = true) : (l1 ++ l2).all p = true := by
  rw [List.all_append, h1, h2]
  rfl

theorem all_map_eq {α β : Type} (f : α → β) (l : List α) (p : β → Bool) :
    (l.map f).all p = l.all fun a => p (f a) := by
  induction l with
  | nil => rfl
  | cons a t ih => simp [List.all_cons, ih]

/-! List lemmas about `takeRight` (JavaScript `slice(-n)`). -/

theorem takeRight_append_len {α : Type} {l2 : List α} (l1 : List α) (n : Nat)
    (h : l2.length = n) : takeRight n (l1 ++ l2) = l2 := by
  unfold takeRight
  rw [List.length_append, h, Nat.add_sub_cancel]
  exact List.drop_left l1 l2

theorem takeRight_all_eq_self {α : Type} {n : Nat} {l : List α} (h : l.length ≤ n) :
    takeRight n l = l := by
  unfold takeRight
  rw [Nat.sub_eq_zero_of_le h]
  rfl

theorem filter_takeRight_of_all {α : Type} (p : α → Bool) (n : Nat) (l : List α)
    (h : (takeRight n l).all p = true) :
    (takeRight n l).filter p = takeRight n (l.filter p) := by
  have hfw : (takeRight n l).filter p = takeRight n l :=
    List.filter_eq_self.mpr (fun a ha => List.all_eq_true.mp h a ha)
  rcases le_or_lt l.length n with hle | hlt
  · have hTR : takeRight n l = l := takeRight_all_eq_self hle
    rw [hTR] at hfw ⊢
    rw [hfw]
    exact hTR.symm
  · have hlen : (takeRight n l).length = n := by
      unfold takeRight
      rw [List.length_drop]
      omega
    rw [hfw]
    conv_rhs => rw [show l = l.take (l.length - n) ++ takeRight n l from
      (List.take_append_drop _ l).symm]
    rw [List.filter_append, hfw]
    exact (takeRight_append_len _ n hlen).symm

theorem takeRight_map {α β : Type} (f : α → β) (n : Nat) (l : List α) :
    takeRight n (l.map f) = (takeRight n l).map f := by
  unfold takeRight
  rw [List.length_map, List.map_drop]

/-! Section: claim theorems. -/

/-- C2: for every job identifier for which the scheduler's describe call
returns no job record, `resolveJobChain` fails with exactly the single
`Job not found: <id>` error, the trace holds only the one `DescribeJobs`
call (no further service call of any kind), and no chain is returned. -/
theorem claim_C2 (d : Deps) (jobId : String) (o : Opts)
    (h : d.world.batchDescribeJobs [jobId] = .ok []) :
    resolveJobChain d jobId o =
      (.error ("Job not found: " ++ jobId), [Call.describeJobs [jobId]], []) := by
  unfold resolveJobChain
  dsimp only
  rw [h]
  rfl

/-- C2 witness: the empty world has no job `job-x`, and resolution fails
with the single error and the single call. -/
theorem claim_C2_witness :
    emptyWorld.batchDescribeJobs ["job-x"] = .ok [] ∧
    resolveJobChain depsEmpty "job-x" {} =
      (.error ("Job not found: " ++ "job-x"), [Call.describeJobs ["job-x"]], []) :=
  ⟨rfl, claim_C2 depsEmpty "job-x" {} rfl⟩

/-- C3 counterexample: `wFarJob` is a FARGATE job, yet its run performs
host resolution through the network-interface path — the trace contains
`DescribeNetworkInterfaces` on its interface and `DescribeInstances` on
the attached instance (and no container-instance describe), and the
chain returns the resolved host id — refuting "host resolution is never
attempted" for Fargate jobs. -/
theorem claim_C3_counterexample :
    wFarJob.platformCapabilities.contains "FARGATE" = true ∧
    (resolveJobChain depsWFar "job-f" {}).2.1 =
      [Call.describeJobs ["job-f"], Call.describeJobQueues [none],
       Call.describeNetworkInterfaces ["eni-1"], Call.describeInstances ["i-0abc"],
       Call.describeVpcs ["vpc-f"]] ∧
    ((resolveJobChain depsWFar "job-f" {}).1.toOption.bind fun ch => ch.ec2InstanceId) =
      some "i-0abc" :=
  ⟨rfl, by decide, rfl⟩

/-- C3 amended: for every job whose platform capabilities include
FARGATE, the container-instance host path is never attempted — no
`DescribeContainerInstances` call appears anywhere in the trace,
regardless of which other fields are present — but the
network-interface host path is not gated on launch type: with no
instance id yet and a truthy first network-interface id on the
container, the ENI stage issues its `DescribeNetworkInterfaces` host
lookup. -/
theorem claim_C3_amended :
    (∀ (d : Deps) (jobId : String) (o : Opts) (job : Job) (rest : List Job),
      d.world.batchDescribeJobs [jobId] = .ok (job :: rest) →
      job.platformCapabilities.contains "FARGATE" = true →
      ((resolveJobChain d jobId o).2.1.all fun c => c.kind != CallKind.ecsCIs) = true) ∧
    (∀ (d : Deps) (cont : Option ContainerDetail) (eid : String),
      0 < ((cont.map fun c => c.networkInterfaces).getD []).length →
      ((cont.map fun c => c.networkInterfaces).getD []).head?.bind id = some eid →
      eid ≠ "" →
      (eniStage d none cont).2.1 = [Call.describeNetworkInterfaces [eid]]) := by
  constructor
  · intro d jobId o job rest h hf
    unfold resolveJobChain
    dsimp only
    rw [h]
    simp only [List.head?_cons]
    rw [hf, ciStage_fargate]
    rw [List.all_cons]
    show (true && _) = true
    rw [Bool.true_and]
    refine all_append_of (all_append_of (all_append_of (all_append_of (all_append_of
      (all_append_of (all_append_of ?_ ?_) ?_) ?_) ?_) ?_) ?_) ?_
    · exact all_kinds_mono (hintFromQueue_kinds _ _)
        (fun k => k != CallKind.ecsCIs) (by decide)
    · exact all_kinds_mono (taskStage_kinds _ _ _ _ _)
        (fun k => k != CallKind.ecsCIs) (by decide)
    · rfl
    · exact all_kinds_mono (eniStage_kinds _ _ _)
        (fun k => k != CallKind.ecsCIs) (by decide)
    · exact all_kinds_mono (instStage_kinds _ _)
        (fun k => k != CallKind.ecsCIs) (by decide)
    · exact all_kinds_mono (ceStage_kinds _ _ _ _)
        (fun k => k != CallKind.ecsCIs) (by decide)
    · exact all_kinds_mono (vpcStage_kinds _ _ _ _)
        (fun k => k != CallKind.ecsCIs) (by decide)
    · exact all_kinds_mono (logStage_kinds _ _ _ _)
        (fun k => k != CallKind.ecsCIs) (by decide)
  · intro d cont eid hnis heid hne
    unfold eniStage
    dsimp only
    rw [if_pos (show (!jsTruthy (none : Option String) &&
        decide (0 < ((cont.map fun c => c.networkInterfaces).getD []).length)) = true by
      simp [jsTruthy, hnis])]
    rw [heid]
    rw [if_pos (show jsTruthy (some eid) = true by simp [jsTruthy, hne])]
    simp only [Option.getD_some]
    rcases hresp : d.world.ec2DescribeNetworkInterfaces [eid] with e | enis <;> simp [hresp]

/-- C3 witness: the amended statement at concrete inputs — the Fargate
fixture run issues no container-instance describe, and a container
whose first network interface is `eni-1` makes the ENI stage issue
exactly that host lookup. -/
theorem claim_C3_witness :
    (((resolveJobChain depsWFar "job-f" {}).2.1.all fun c => c.kind != CallKind.ecsCIs) = true) ∧
    (eniStage depsEmpty none (some { networkInterfaces := [some "eni-1"] })).2.1 =
      [Call.describeNetworkInterfaces ["eni-1"]] :=
  ⟨claim_C3_amended.1 depsWFar "job-f" {} wFarJob [] rfl rfl,
   claim_C3_amended.2 depsEmpty (some { networkInterfaces := [some "eni-1"] }) "eni-1"
     (by decide) rfl (by decide)⟩

/-- C9: the debug toggle does not influence resolution outcomes — two
runs over the same world, region, job id and options, one with the
toggle on and one with it off, return the same result record and issue
the same service calls. -/
theorem claim_C9 (r : String) (w : World) (jobId : String) (o : Opts) :
    (resolveJobChain ⟨r, w, true⟩ jobId o).1 = (resolveJobChain ⟨r, w, false⟩ jobId o).1 ∧
    (resolveJobChain ⟨r, w, true⟩ jobId o).2.1 = (resolveJobChain ⟨r, w, false⟩ jobId o).2.1 := by
  have hv : ∀ q, (hintFromQueue (⟨r, w, true⟩ : Deps) q).1 = (hintFromQueue ⟨r, w, false⟩ q).1 :=
    fun q => pair_eq_left (hintFromQueue_debug r w true q)
  have hc : ∀ q, (hintFromQueue (⟨r, w, true⟩ : Deps) q).2.1 =
      (hintFromQueue ⟨r, w, false⟩ q).2.1 :=
    fun q => pair_eq_right (hintFromQueue_debug r w true q)
  have tv : ∀ a b c e, (taskStage (⟨r, w, true⟩ : Deps) a b c e).1 =
      (taskStage ⟨r, w, false⟩ a b c e).1 :=
    fun a b c e => pair_eq_left (taskStage_debug r w true a b c e)
  have tc : ∀ a b c e, (taskStage (⟨r, w, true⟩ : Deps) a b c e).2.1 =
      (taskStage ⟨r, w, false⟩ a b c e).2.1 :=
    fun a b c e => pair_eq_right (taskStage_debug r w true a b c e)
  have civ : ∀ f a b, (ciStage (⟨r, w, true⟩ : Deps) f a b).1 =
      (ciStage ⟨r, w, false⟩ f a b).1 :=
    fun f a b => pair_eq_left (ciStage_debug r w true f a b)
  have cic : ∀ f a b, (ciStage (⟨r, w, true⟩ : Deps) f a b).2.1 =
      (ciStage ⟨r, w, false⟩ f a b).2.1 :=
    fun f a b => pair_eq_right (ciStage_debug r w true f a b)
  have env : ∀ a b, (eniStage (⟨r, w, true⟩ : Deps) a b).1 = (eniStage ⟨r, w, false⟩ a b).1 :=
    fun a b => pair_eq_left (eniStage_debug r w true a b)
  have enc : ∀ a b, (eniStage (⟨r, w, true⟩ : Deps) a b).2.1 =
      (eniStage ⟨r, w, false⟩ a b).2.1 :=
    fun a b => pair_eq_right (eniStage_debug r w true a b)
  have inv : ∀ a, (instStage (⟨r, w, true⟩ : Deps) a).1 = (instStage ⟨r, w, false⟩ a).1 :=
    fun a => pair_eq_left (instStage_debug r w true a)
  have inc : ∀ a, (instStage (⟨r, w, true⟩ : Deps) a).2.1 = (instStage ⟨r, w, false⟩ a).2.1 :=
    fun a => pair_eq_right (instStage_debug r w true a)
  have cev : ∀ a b c, (ceStage (⟨r, w, true⟩ : Deps) a b c).1 =
      (ceStage ⟨r, w, false⟩ a b c).1 :=
    fun a b c => pair_eq_left (ceStage_debug r w true a b c)
  have cec : ∀ a b c, (ceStage (⟨r, w, true⟩ : Deps) a b c).2.1 =
      (ceStage ⟨r, w, false⟩ a b c).2.1 :=
    fun a b c => pair_eq_right (ceStage_debug r w true a b c)
  have vpv : ∀ a b c, (vpcStage (⟨r, w, true⟩ : Deps) a b c).1 =
      (vpcStage ⟨r, w, false⟩ a b c).1 :=
    fun a b c => pair_eq_left (vpcStage_debug r w true a b c)
  have vpc2 : ∀ a b c, (vpcStage (⟨r, w, true⟩ : Deps) a b c).2.1 =
      (vpcStage ⟨r, w, false⟩ a b c).2.1 :=
    fun a b c => pair_eq_right (vpcStage_debug r w true a b c)
  have lgv : ∀ g s n, (logStage (⟨r, w, true⟩ : Deps) g s n).1 =
      (logStage ⟨r, w, false⟩ g s n).1 :=
    fun g s n => pair_eq_left (logStage_debug r w true g s n)
  have lgc : ∀ g s n, (logStage (⟨r, w, true⟩ : Deps) g s n).2.1 =
      (logStage ⟨r, w, false⟩ g s n).2.1 :=
    fun g s n => pair_eq_right (logStage_debug r w true g s n)
  unfold resolveJobChain
  dsimp only
  rcases hj : w.batchDescribeJobs [jobId] with e | jobs
  · exact ⟨rfl, rfl⟩
  · cases jobs with
    | nil => exact ⟨rfl, rfl⟩
    | cons job rest =>
      simp only [List.head?_cons]
      rw [hv, tv, civ, env, inv, cev, vpv, lgv, hc, tc, cic, enc, inc, cec, vpc2, lgc]
      exact ⟨rfl, rfl⟩

/-- C10: the effective log line count is `max(1, requested)`, defaulting
to 50 when absent — a nonpositive request is silently clamped to 1, an
absent one becomes 50, a positive one is used as is; every
`GetLogEvents` call the resolution issues carries exactly that clamped
limit; and a nonpositive request is never rejected (once the job is
found the resolution still returns a chain). -/
theorem claim_C10 :
    (∀ (g : Option String) (n : Int), n ≤ 0 →
      effLogLines { logGroup := g, logLines := some n } = 1) ∧
    (∀ g : Option String, effLogLines { logGroup := g, logLines := none } = 50) ∧
    (∀ (g : Option String) (n : Int), 1 ≤ n →
      effLogLines { logGroup := g, logLines := some n } = n) ∧
    (∀ (d : Deps) (jobId : String) (o : Opts) (g s : String) (lim : Int) (fh : Bool),
      Call.getLogEvents g s lim fh ∈ (resolveJobChain d jobId o).2.1 →
      lim = effLogLines o) ∧
    (∀ (d : Deps) (jobId : String) (o : Opts) (job : Job) (rest : List Job),
      d.world.batchDescribeJobs [jobId] = .ok (job :: rest) →
      ∃ ch, (resolveJobChain d jobId o).1 = .ok ch) := by
  refine ⟨?_, ?_, ?_, ?_, resolve_ok_of_found⟩
  · intro g n hn
    unfold effLogLines
    simp only [Option.getD_some]
    omega
  · intro g
    rfl
  · intro g n hn
    unfold effLogLines
    simp only [Option.getD_some]
    omega
  · intro d jobId o g s lim fh hmem
    unfold resolveJobChain at hmem
    dsimp only at hmem
    rcases hj : d.world.batchDescribeJobs [jobId] with e | jobs
    · rw [hj] at hmem
      simp at hmem
    · rw [hj] at hmem
      cases jobs with
      | nil => simp at hmem
      | cons job rest =>
        simp only [List.head?_cons] at hmem
        rw [List.mem_cons] at hmem
        rcases hmem with hmem | hmem
        · exact absurd hmem (by simp)
        · rw [List.mem_append] at hmem
          rcases hmem with hmem | hmem
          · exfalso
            have hsplit := hmem
            rw [List.mem_append] at hsplit
            rcases hsplit with hs2 | hs2
            · rw [List.mem_append] at hs2
              rcases hs2 with hs3 | hs3
              · rw [List.mem_append] at hs3
                rcases hs3 with hs4 | hs4
                · rw [List.mem_append] at hs4
                  rcases hs4 with hs5 | hs5
                  · rw [List.mem_append] at hs5
                    rcases hs5 with hs6 | hs6
                    · rw [List.mem_append] at hs6
                      rcases hs6 with hs7 | hs7
                      · have := kinds_mem (hintFromQueue_kinds _ _) hs7
                        simp [Call.kind] at this
                      · have := kinds_mem (taskStage_kinds _ _ _ _ _) hs7
                        simp [Call.kind] at this
                    · have := kinds_mem (ciStage_kinds _ _ _ _) hs6
                      simp [Call.kind] at this
                  · have := kinds_mem (eniStage_kinds _ _ _) hs5
                    simp [Call.kind] at this
                · have := kinds_mem (instStage_kinds _ _) hs4
                  simp [Call.kind] at this
              · have := kinds_mem (ceStage_kinds _ _ _ _) hs3
                simp [Call.kind] at this
            · have := kinds_mem (vpcStage_kinds _ _ _ _) hs2
              simp [Call.kind] at this
          · rw [logStage_calls] at hmem
            split at hmem
            · rw [List.mem_singleton] at hmem
              injection hmem with h1 h2 h3 h4
            · simp at hmem

/-- C10 witness: a request of −3 lines clamps to 1, an absent request
defaults to 50, 7 stays 7; the one `GetLogEvents` call of a concrete run
carries the clamped limit; and a negative request does not make the
resolution fail. -/
theorem claim_C10_witness :
    effLogLines { logGroup := none, logLines := some (-3) } = 1 ∧
    effLogLines { logGroup := none, logLines := none } = 50 ∧
    effLogLines { logGroup := none, logLines := some 7 } = 7 ∧
    (2 : Int) = effLogLines opts4 ∧
    (∃ ch, (resolveJobChain depsW4 "job-4" { logGroup := none, logLines := some (-3) }).1 =
      .ok ch) :=
  ⟨claim_C10.1 none (-3) (by norm_num),
   claim_C10.2.1 none,
   claim_C10.2.2.1 none 7 (by norm_num),
   claim_C10.2.2.2.1 depsW4 "job-4" opts4 "/aws/batch/job" "s" 2 false (by decide),
   claim_C10.2.2.2.2 depsW4 "job-4" _ w4Job [] rfl⟩

/-- C5: for a job record without a direct compute-environment reference
(and a truthy queue), the resolver issues one `DescribeJobQueues` call
and one batched `DescribeComputeEnvironments` call over the queue's
compute environments in declared order, and selects the environment
whose linked cluster ARN exactly equals the already-resolved cluster
ARN — even when it is not first — falling back to the first described
environment when there is no match or no resolved cluster. -/
theorem claim_C5 (d : Deps) (jobCE jobQueue cl : Option String) (jq : JobQueue)
    (jqrest : List JobQueue) (ces : List ComputeEnv)
    (hce : jsTruthy jobCE = false) (hq : jsTruthy jobQueue = true)
    (h1 : d.world.batchDescribeJobQueues [jobQueue] = .ok (jq :: jqrest))
    (hne : 0 < (truthyFilter jq.computeEnvironmentOrder).length)
    (h2 : d.world.batchDescribeComputeEnvironments (truthyFilter jq.computeEnvironmentOrder) =
      .ok ces) :
    (∀ m : ComputeEnv, jsTruthy cl = true →
      ces.find? (fun c => c.ecsClusterArn == cl) = some m →
      ceStage d jobCE jobQueue cl =
        ((jsOr m.computeEnvironmentArn m.computeEnvironmentName, some m),
         [Call.describeJobQueues [jobQueue],
          Call.describeComputeEnvironments (truthyFilter jq.computeEnvironmentOrder)], [])) ∧
    (∀ (c0 : ComputeEnv) (rest2 : List ComputeEnv), ces = c0 :: rest2 →
      (jsTruthy cl = false ∨ ces.find? (fun c => c.ecsClusterArn == cl) = none) →
      ceStage d jobCE jobQueue cl =
        ((jsOr c0.computeEnvironmentArn c0.computeEnvironmentName, some c0),
         [Call.describeJobQueues [jobQueue],
          Call.describeComputeEnvironments (truthyFilter jq.computeEnvironmentOrder)], [])) := by
  have hbase : ceStage d jobCE jobQueue cl =
      (let ces2 := ces
       let mtch := if jsTruthy cl then ces2.find? fun c => c.ecsClusterArn == cl else none
       let chosen := mtch <|> ces2.head?
       match chosen with
       | some c =>
         ((jsOr c.computeEnvironmentArn c.computeEnvironmentName, some c),
          [Call.describeJobQueues [jobQueue],
           Call.describeComputeEnvironments (truthyFilter jq.computeEnvironmentOrder)], [])
       | none =>
         ((jobCE, none),
          [Call.describeJobQueues [jobQueue],
           Call.describeComputeEnvironments (truthyFilter jq.computeEnvironmentOrder)], [])) := by
    unfold ceStage
    rw [if_neg (show ¬ jsTruthy jobCE = true by simp [hce]), if_pos hq, h1]
    simp only [List.head?_cons, Option.map_some', Option.getD_some]
    rw [if_pos hne, h2]
  constructor
  · intro m hcl hfind
    rw [hbase]
    dsimp only
    rw [if_pos hcl, hfind]
    rfl
  · intro c0 rest2 hces hnone
    rw [hbase]
    dsimp only
    subst hces
    have hmtch : (if jsTruthy cl = true then
        (c0 :: rest2).find? fun c => c.ecsClusterArn == cl else none) = none := by
      rcases hnone with hcl | hfind
      · rw [if_neg]
        simp [hcl]
      · split
        · exact hfind
        · rfl
    rw [hmtch]
    rfl

/-- C5 witness: with two compute environments on the queue and the
second one linked to the resolved cluster, the second is selected. -/
theorem claim_C5_witness :
    ceStage depsW5 none (some "q5") (some arnParsedCluster) =
      ((some "ce2", some w5CE2),
       [Call.describeJobQueues [some "q5"],
        Call.describeComputeEnvironments ["ce1", "ce2"]], []) := by
  have h := (claim_C5 depsW5 none (some "q5") (some arnParsedCluster)
    { computeEnvironmentOrder := [some "ce1", some "ce2"] } [] [w5CE1, w5CE2]
    rfl rfl rfl (by decide) rfl).1 w5CE2 (by decide) (by decide)
  exact h.trans (by rfl)

/-- C8: (1) when the resolved instance carries a truthy VPC id, the VPC
stage issues exactly one call — `DescribeVpcs` on the instance's VPC —
and in particular no network-interface describe and no subnet describe,
whatever network interfaces the container has and whatever subnets the
compute environment lists (the instance-derived VPC wins the cascade);
(2) VPC derivation (like every stage after the job fetch) never raises
an observable error: once the job is found the resolution returns a
chain. -/
theorem claim_C8 :
    (∀ (d : Deps) (i : Ec2Instance) (cont : Option ContainerDetail) (ce : Option ComputeEnv),
      jsTruthy i.vpcId = true →
      (vpcStage d (some i) cont ce).2.1 = [Call.describeVpcs [i.vpcId.getD ""]]) ∧
    (∀ (d : Deps) (jobId : String) (o : Opts) (job : Job) (rest : List Job),
      d.world.batchDescribeJobs [jobId] = .ok (job :: rest) →
      ∃ ch, (resolveJobChain d jobId o).1 = .ok ch) := by
  refine ⟨?_, resolve_ok_of_found⟩
  intro d i cont ce hv
  have he : vpcEniStep d i.vpcId i.subnetId ((cont.map fun c => c.networkInterfaces).getD []) =
      ((i.vpcId, i.subnetId), [], []) := by
    unfold vpcEniStep
    simp [hv]
  have hs2 : ∀ s2, vpcSubnetStep d i.vpcId s2 = (i.vpcId, [], []) := by
    intro s2
    unfold vpcSubnetStep
    simp [hv]
  have hd : (vpcDescribeStep d i.vpcId).2.1 = [Call.describeVpcs [i.vpcId.getD ""]] := by
    unfold vpcDescribeStep
    rw [if_pos hv]
    dsimp only
    repeat' split
    all_goals rfl
  unfold vpcStage
  dsimp only
  simp only [Option.some_bind']
  rw [he]
  dsimp only
  rw [hs2]
  dsimp only
  simp only [List.nil_append]
  exact hd

/-- C8 witness: an instance VPC beats a container network interface and
a compute-environment subnet that are both present; and a found job
always yields a chain. -/
theorem claim_C8_witness :
    (vpcStage depsEmpty (some { vpcId := some "vpc-1", subnetId := some "sub-1" })
        (some { networkInterfaces := [some "eni-9"] })
        (some { computeResourcesSubnets := some ["sub-ce"] })).2.1 =
      [Call.describeVpcs ["vpc-1"]] ∧
    (resolveJobChain depsW1 "job-1" {}).1.toOption.isSome = true := by
  constructor
  · exact claim_C8.1 depsEmpty _ _ _ (by decide)
  · obtain ⟨ch, hch⟩ := claim_C8.2 depsW1 "job-1" {} w1Job [] rfl
    rw [hch]
    rfl

/-- C4 counterexample: in fixture world 4 the stream holds messages
`"a"`, `"b"`, `" "`; requesting the last 2 lines returns only `["b"]`
(the window of the last 2 events is filtered after the cut), while the
last 2 non-empty trimmed lines of the stream are `["a", "b"]`. -/
theorem claim_C4_counterexample :
    ((resolveJobChain depsW4 "job-4" opts4).1.toOption.bind fun ch => ch.lastLogLines) =
      some ["b"] ∧
    specLastNonEmptyLines w4Stream 2 = ["a", "b"] ∧
    (["b"] : List String) ≠ ["a", "b"] :=
  ⟨by decide, by decide, by decide⟩

/-- C4 amended: the bounded fetch returns the non-empty trimmed lines
among the last N fetched events, in chronological order (possibly fewer
than N); whenever every message in that window trims non-empty, this
equals the last N non-empty trimmed lines of the fetched events. -/
theorem claim_C4_amended (d : Deps) (g s : String) (n : Int) (evs : List LogEvent)
    (hs : s ≠ "") (h : d.world.logsGetLogEvents g s n false = .ok evs) :
    (logStage d g (some s) n =
      (some (((takeRight n.toNat evs).map fun e => jsTrim (e.message.getD "")).filter
          fun m => m ≠ ""),
       [Call.getLogEvents g s n false], [])) ∧
    (((takeRight n.toNat evs).all fun e => jsTrim (e.message.getD "") ≠ "") = true →
      (logStage d g (some s) n).1 = some (specLastNonEmptyLines evs n.toNat)) := by
  have hpart1 : logStage d g (some s) n =
      (some (((takeRight n.toNat evs).map fun e => jsTrim (e.message.getD "")).filter
          fun m => m ≠ ""),
       [Call.getLogEvents g s n false], []) := by
    unfold logStage
    rw [if_pos (show jsTruthy (some s) = true by simp [jsTruthy, hs])]
    simp only [Option.getD_some]
    rw [h]
  refine ⟨hpart1, ?_⟩
  intro hall
  rw [hpart1]
  dsimp only
  congr 1
  have hmap : (takeRight n.toNat evs).map (fun e => jsTrim (e.message.getD "")) =
      takeRight n.toNat (evs.map fun e => jsTrim (e.message.getD "")) :=
    (takeRight_map _ _ _).symm
  have hall2 : ((takeRight n.toNat (evs.map fun e => jsTrim (e.message.getD ""))).all
      fun m => m ≠ "") = true := by
    rw [← hmap, all_map_eq]
    exact hall
  rw [hmap, filter_takeRight_of_all _ _ _ hall2]
  rfl

/-- C4 witness: the amended statement at fixture world 4 — the bounded
fetch over stream `s` (window holds an empty line) returns `["b"]`, and
over stream `t` (window all non-empty) returns exactly the spec's last
lines. -/
theorem claim_C4_witness :
    logStage depsW4 "/aws/batch/job" (some "s") 2 =
      (some ["b"], [Call.getLogEvents "/aws/batch/job" "s" 2 false], []) ∧
    (logStage depsW4 "/aws/batch/job" (some "t") 2).1 =
      some (specLastNonEmptyLines [{ message := some "x" }] 2) :=
  ⟨((claim_C4_amended depsW4 "/aws/batch/job" "s" 2 (takeRight 2 w4Stream)
      (by decide) rfl).1).trans (by rfl),
   (claim_C4_amended depsW4 "/aws/batch/job" "t" 2 [{ message := some "x" }]
      (by decide) rfl).2 (by decide)⟩

/-- C1 counterexample: in fixture world 1 the compute-environment hint
resolves to `arnHintCluster`, yet the first task lookup the resolution
issues is on the parsed cluster ARN (not the hint), and a second task
lookup is issued even though the first one already returned the task —
contradicting both the claimed candidate order (hint first) and "no
later candidate lookup is issued after a success". -/
theorem claim_C1_counterexample :
    (hintFromQueue depsW1 (some "q1")).1 = some arnHintCluster ∧
    w1.ecsDescribeTasks (some arnParsedCluster) [arnTask] = .ok [w1Task] ∧
    ((resolveJobChain depsW1 "job-1" {}).2.1.filter fun c => c.kind == CallKind.ecsTasks) =
      [Call.describeTasks (some arnParsedCluster) [arnTask],
       Call.describeTasks (some arnParsedCluster) [arnTask]] ∧
    arnHintCluster ≠ arnParsedCluster :=
  ⟨rfl, rfl, by decide, by decide⟩

/-- C1 amended: for a job with task ARN `arnTask`, the inlined chain
tries the cluster ARN parsed from the task ARN first; when that lookup
succeeds with a task `tk` on cluster `C`, the hint-slot lookup is still
issued — against the now-current cluster `C` — and its task result
overwrites `tk`; only then do the remaining candidates (parsed name, no
cluster, exhaustive scan, startedBy scan) get skipped.  Exactly two
task lookups appear in the trace. -/
theorem claim_C1_amended (d : Deps) (jid clusterIn ciIn : Option String) (tk tk2 : EcsTask)
    (C : String)
    (h1 : d.world.ecsDescribeTasks (some arnParsedCluster) [arnTask] = .ok [tk])
    (h2 : tk.clusterArn = some C) (h3 : C ≠ "")
    (h4 : d.world.ecsDescribeTasks (some C) [arnTask] = .ok [tk2]) :
    taskStage d jid (some arnTask) clusterIn ciIn =
      ((some tk2, jsOr tk2.clusterArn (some C), jsOr tk2.containerInstanceArn ciIn),
       [Call.describeTasks (some arnParsedCluster) [arnTask],
        Call.describeTasks (some C) [arnTask]], []) := by
  have hCtrue : jsTruthy (some C) = true := by simp [jsTruthy, h3]
  have hOr : jsOr (some C) (some arnParsedCluster) = some C := by simp [jsOr, hCtrue]
  have hA : taskStepParsedArn d arnTask (clusterArnFromTaskArn (some arnTask)) clusterIn =
      ((some tk, some C), [Call.describeTasks (some arnParsedCluster) [arnTask]], []) := by
    rw [show clusterArnFromTaskArn (some arnTask) = some arnParsedCluster from rfl]
    unfold taskStepParsedArn
    rw [if_pos (show jsTruthy (some arnParsedCluster) = true from rfl)]
    simp only [Option.getD_some]
    rw [h1]
    dsimp only
    rw [h2, hOr]
  have hB : taskStepHinted d arnTask (some C) =
      (some tk2, [Call.describeTasks (some C) [arnTask]], []) := by
    unfold taskStepHinted
    rw [if_pos hCtrue]
    simp only [Option.getD_some]
    rw [h4]
  show taskChain d jid arnTask clusterIn ciIn = _
  unfold taskChain
  dsimp only
  rw [hA]
  dsimp only
  rw [hB]
  simp only [Option.some_orElse, Option.isNone_some, Bool.false_eq_true, if_false]
  rw [show clusterArnFromTaskArn (some arnTask) = some arnParsedCluster from rfl, hOr]
  rfl

/-- C1 witness: the amended behavior at fixture world 1 — the parsed
cluster is tried first and succeeds, the second lookup repeats on the
resolved cluster, and exactly those two calls are issued. -/
theorem claim_C1_witness :
    taskStage depsW1 (some "job-1") (some arnTask) (some arnHintCluster) none =
      ((some w1Task, some arnParsedCluster, none),
       [Call.describeTasks (some arnParsedCluster) [arnTask],
        Call.describeTasks (some arnParsedCluster) [arnTask]], []) :=
  (claim_C1_amended depsW1 (some "job-1") (some arnHintCluster) none w1Task w1Task
    arnParsedCluster rfl rfl (by decide) rfl).trans (by rfl)

/-- C6: during the candidate loop, a cluster-identifier-mismatch error
is absorbed with no diagnostic at all (even with debug on), any other
candidate error is surfaced only when the debug toggle is on (via
`dbeD`), and in both cases the loop continues to the next candidate —
here the third candidate still runs and wins.  The `absorbD` facts
state the suppression policy for every candidate catch site. -/
theorem claim_C6 (d : Deps) (jid ciIn : Option String) (H : String) (tk : EcsTask)
    (m1 m2 : String) (hH : H ≠ "")
    (h1 : d.world.ecsDescribeTasks (some arnParsedCluster) [arnTask] = .error m1)
    (hm1 : isExpectedClusterMismatch m1 = true)
    (h2 : d.world.ecsDescribeTasks (some H) [arnTask] = .error m2)
    (hm2 : isExpectedClusterMismatch m2 = false)
    (h3 : d.world.ecsDescribeTasks (some "my-cluster") [arnTask] = .ok [tk]) :
    (taskStage d jid (some arnTask) (some H) ciIn =
      ((some tk, jsOr tk.clusterArn (jsOr (some H) (some arnParsedCluster)),
        jsOr tk.containerInstanceArn ciIn),
       [Call.describeTasks (some arnParsedCluster) [arnTask],
        Call.describeTasks (some H) [arnTask],
        Call.describeTasks (some "my-cluster") [arnTask]],
       dbeD d ("DescribeTasks(hintedClusterArn=" ++ H ++ ")") m2)) ∧
    (∀ lbl msg, isExpectedClusterMismatch msg = true → absorbD d lbl msg = []) ∧
    (∀ lbl msg, isExpectedClusterMismatch msg = false → absorbD d lbl msg = dbeD d lbl msg) ∧
    (d.debug = false → dbeD d ("DescribeTasks(hintedClusterArn=" ++ H ++ ")") m2 = []) := by
  have hHtrue : jsTruthy (some H) = true := by simp [jsTruthy, hH]
  have hA : taskStepParsedArn d arnTask (clusterArnFromTaskArn (some arnTask)) (some H) =
      ((none, some H), [Call.describeTasks (some arnParsedCluster) [arnTask]], []) := by
    rw [show clusterArnFromTaskArn (some arnTask) = some arnParsedCluster from rfl]
    unfold taskStepParsedArn
    rw [if_pos (show jsTruthy (some arnParsedCluster) = true from rfl)]
    simp only [Option.getD_some]
    rw [h1]
    dsimp only
    simp [absorbD, hm1]
  have hB : taskStepHinted d arnTask (some H) =
      (none, [Call.describeTasks (some H) [arnTask]],
       dbeD d ("DescribeTasks(hintedClusterArn=" ++ H ++ ")") m2) := by
    unfold taskStepHinted
    rw [if_pos hHtrue]
    simp only [Option.getD_some]
    rw [h2]
    dsimp only [optStr]
    simp [absorbD, hm2]
  have hC : taskStepParsedName d arnTask (clusterFromTaskArn (some arnTask)) =
      (some tk, [Call.describeTasks (some "my-cluster") [arnTask]], []) := by
    rw [show clusterFromTaskArn (some arnTask) = some "my-cluster" from rfl]
    unfold taskStepParsedName
    rw [if_pos (show jsTruthy (some "my-cluster") = true from rfl)]
    simp only [Option.getD_some]
    rw [h3]
  refine ⟨?_, ?_, ?_, ?_⟩
  · show taskChain d jid arnTask (some H) ciIn = _
    unfold taskChain
    dsimp only
    rw [hA]
    dsimp only
    rw [hB]
    dsimp only
    rw [hC]
    rw [show clusterArnFromTaskArn (some arnTask) = some arnParsedCluster from rfl]
    simp only [Option.none_orElse, Option.some_orElse, Option.isNone_none, Option.isNone_some,
      Bool.false_eq_true, if_false, eq_self_iff_true, if_true, List.append_nil, List.nil_append]
    rfl
  · intro lbl msg hmsg
    simp [absorbD, hmsg]
  · intro lbl msg hmsg
    simp [absorbD, hmsg]
  · intro hdbg
    simp [dbeD, hdbg]

/-- C6 witness: with debug ON, a mismatch-signature error on the first
candidate leaves no diagnostic, the plain error on the second candidate
is the only surfaced line, and the third candidate still resolves the
task. -/
theorem claim_C6_witness :
    taskStage depsW6 (some "job-6") (some arnTask) (some arnHintCluster) none =
      ((some w6Task, some arnParsedCluster, none),
       [Call.describeTasks (some arnParsedCluster) [arnTask],
        Call.describeTasks (some arnHintCluster) [arnTask],
        Call.describeTasks (some "my-cluster") [arnTask]],
       ["[debug][error] DescribeTasks(hintedClusterArn=" ++ arnHintCluster ++ "): boom"]) :=
  ((claim_C6 depsW6 (some "job-6") none arnHintCluster w6Task
      "cluster identifiers mismatch" "boom" (by decide) rfl (by decide) rfl (by decide)
      rfl).1).trans (by rfl)

/-- C7 counterexample: in fixture world 7 the job has no task ARN
anywhere, and indeed no task lookup of any kind is issued and no task
is returned — but the chain's cluster ARN is not `undefined`: it keeps
the compute-environment hint. -/
theorem claim_C7_counterexample :
    (((resolveJobChain depsW7 "job-7" {}).1.toOption.map fun ch =>
        (ch.ecsTask, ch.ecsClusterArn)) = some (none, some arnHintCluster)) ∧
    ((resolveJobChain depsW7 "job-7" {}).2.1.all fun c =>
      c.kind != CallKind.ecsTasks && c.kind != CallKind.ecsListTasks &&
        c.kind != CallKind.ecsListClusters) = true ∧
    (some arnHintCluster : Option String) ≠ none :=
  ⟨rfl, by decide, by decide⟩

/-- C7 amended: for every job record with no task ARN (neither in the
latest attempt's container nor in the declared container), no task
lookup of any kind (`DescribeTasks`, `ListTasks`, `ListClusters`) is
issued and no task is returned; the chain's cluster ARN is exactly the
compute-environment hint (absent when no hint was derived). -/
theorem claim_C7_amended (d : Deps) (jobId : String) (o : Opts) (job : Job) (rest : List Job)
    (h : d.world.batchDescribeJobs [jobId] = .ok (job :: rest))
    (hT : ((((lastElem job.attempts).bind fun a => a.container).bind fun c => c.taskArn) <|>
      (job.container.bind fun c => c.taskArn)) = none) :
    (((resolveJobChain d jobId o).1.toOption.map fun ch =>
        (ch.ecsTask, ch.ecsClusterArn)) = some (none, (hintFromQueue d job.jobQueue).1)) ∧
    ((resolveJobChain d jobId o).2.1.all fun c =>
      c.kind != CallKind.ecsTasks && c.kind != CallKind.ecsListTasks &&
        c.kind != CallKind.ecsListClusters) = true := by
  unfold resolveJobChain
  dsimp only
  rw [h]
  simp only [List.head?_cons]
  rw [hT]
  constructor
  · rfl
  · rw [List.all_cons]
    show (true && _) = true
    rw [Bool.true_and]
    refine all_append_of (all_append_of (all_append_of (all_append_of (all_append_of
      (all_append_of (all_append_of ?_ ?_) ?_) ?_) ?_) ?_) ?_) ?_
    · exact all_kinds_mono (hintFromQueue_kinds _ _)
        (fun k => k != CallKind.ecsTasks && k != CallKind.ecsListTasks &&
          k != CallKind.ecsListClusters) (by decide)
    · rfl
    · exact all_kinds_mono (ciStage_kinds _ _ _ _)
        (fun k => k != CallKind.ecsTasks && k != CallKind.ecsListTasks &&
          k != CallKind.ecsListClusters) (by decide)
    · exact all_kinds_mono (eniStage_kinds _ _ _)
        (fun k => k != CallKind.ecsTasks && k != CallKind.ecsListTasks &&
          k != CallKind.ecsListClusters) (by decide)
    · exact all_kinds_mono (instStage_kinds _ _)
        (fun k => k != CallKind.ecsTasks && k != CallKind.ecsListTasks &&
          k != CallKind.ecsListClusters) (by decide)
    · exact all_kinds_mono (ceStage_kinds _ _ _ _)
        (fun k => k != CallKind.ecsTasks && k != CallKind.ecsListTasks &&
          k != CallKind.ecsListClusters) (by decide)
    · exact all_kinds_mono (vpcStage_kinds _ _ _ _)
        (fun k => k != CallKind.ecsTasks && k != CallKind.ecsListTasks &&
          k != CallKind.ecsListClusters) (by decide)
    · exact all_kinds_mono (logStage_kinds _ _ _ _)
        (fun k => k != CallKind.ecsTasks && k != CallKind.ecsListTasks &&
          k != CallKind.ecsListClusters) (by decide)

/-- C7 witness: the amended statement at fixture world 7. -/
theorem claim_C7_witness :
    w7.batchDescribeJobs ["job-7"] = .ok [w7Job] ∧
    (((resolveJobChain depsW7 "job-7" {}).1.toOption.map fun ch =>
        (ch.ecsTask, ch.ecsClusterArn)) = some (none, (hintFromQueue depsW7 w7Job.jobQueue).1)) ∧
    ((resolveJobChain depsW7 "job-7" {}).2.1.all fun c =>
      c.kind != CallKind.ecsTasks && c.kind != CallKind.ecsListTasks &&
        c.kind != CallKind.ecsListClusters) = true := by
  have h := claim_C7_amended depsW7 "job-7" {} w7Job [] rfl rfl
  exact ⟨rfl, h.1, h.2⟩

end Batchi
